import Mathlib

/-!
Verification development for the Algo-Trading repository.

The pipeline (data source, indicator engine, strategy evaluator, model
trainer, orchestrator) is shallowly embedded: pandas DataFrames become
records of columns, a column is a list of `Cell := Option ℚ` where `none`
models a floating NaN, and the external collaborators (numpy RNG, the
Python string hash, sklearn model fitting, the pandas-ta indicator
formulas, the wall clock) are modelled as explicit parameters or as
textbook formulas, documented at each definition.
-/

namespace AlgoTrading

/-- Model of a pandas float cell: `none` is NaN, `some q` a finite value. -/
abbrev Cell := Option ℚ

/-- NaN-propagating addition on cells. -/
def cAdd : Cell → Cell → Cell
  | some a, some b => some (a + b)
  | _, _ => none

/-- NaN-propagating subtraction on cells. -/
def cSub : Cell → Cell → Cell
  | some a, some b => some (a - b)
  | _, _ => none

/-- Division of rationals that models the float convention the pipeline
relies on: a zero denominator yields NaN (`none`). -/
def cDivQ (a b : ℚ) : Cell :=
  if b = 0 then none else some (a / b)

/-- Comparison of a cell with a rational, with the pandas semantics that a
comparison against NaN is False. -/
def cLt (x : Cell) (q : ℚ) : Bool :=
  match x with
  | some a => decide (a < q)
  | none => false

/-- Comparison of two cells, False when either side is NaN. -/
def cGt : Cell → Cell → Bool
  | some a, some b => decide (b < a)
  | _, _ => false

/-- Non-strict comparison of two cells, False when either side is NaN. -/
def cLe : Cell → Cell → Bool
  | some a, some b => decide (a ≤ b)
  | _, _ => false

/-- Slice holding the window of width `w` that ends at index `i`
(inclusive) of a column; callers guard `w ≤ i + 1`. -/
def window (xs : List ℚ) (i w : Nat) : List ℚ :=
  (xs.drop (i + 1 - w)).take w

/-- Sum of the window of width `w` ending at index `i`. -/
def windowSum (xs : List ℚ) (i w : Nat) : ℚ :=
  (window xs i w).sum

/-- Arithmetic mean of the window of width `w` ending at index `i`. -/
def windowMean (xs : List ℚ) (i w : Nat) : ℚ :=
  windowSum xs i w / (w : ℚ)

/-- Maximum of the window of width `w` ending at index `i`. -/
def windowMax (xs : List ℚ) (i w : Nat) : ℚ :=
  match window xs i w with
  | [] => 0
  | h :: t => t.foldl max h

/-- Minimum of the window of width `w` ending at index `i`. -/
def windowMin (xs : List ℚ) (i w : Nat) : ℚ :=
  match window xs i w with
  | [] => 0
  | h :: t => t.foldl min h

/-- Sample variance (ddof = 1, the pandas rolling-std default) of the
window of width `w` ending at index `i`. -/
def windowVar (xs : List ℚ) (i w : Nat) : ℚ :=
  (((window xs i w).map (fun x => (x - windowMean xs i w) ^ 2)).sum)
    / ((w : ℚ) - 1)

/-- Round-half-to-even on rationals, the rounding used by Python's
built-in `round` and by `DataFrame.round`. -/
def roundHalfEven (q : ℚ) : ℤ :=
  if q - (⌊q⌋ : ℚ) < 1/2 then ⌊q⌋
  else if 1/2 < q - (⌊q⌋ : ℚ) then ⌊q⌋ + 1
  else if 2 ∣ ⌊q⌋ then ⌊q⌋ else ⌊q⌋ + 1

/-- Rounding to two decimal places, as in `round(x, 2)` and
`DataFrame.round(2)`. -/
def round2 (q : ℚ) : ℚ :=
  ((roundHalfEven (q * 100) : ℚ)) / 100

/-! Period constants. Modelled from the spec: `src/config.py` is imported by
`technical_analysis.py` but is not under `src/`; the numeric values are the
ones the spec fixes in section 4.2 (RSI(14), SMA(20), SMA(50), EMA(12),
EMA(26), MACD(12,26,9), Bollinger(20, 2), Stochastic(14,3,3),
Williams(14), ATR(14), rolling support/resistance window 20). -/

def RSI_PERIOD : Nat := 14

def SMA_SHORT_PERIOD : Nat := 20

def SMA_LONG_PERIOD : Nat := 50

def MACD_FAST : Nat := 12

def MACD_SLOW : Nat := 26

def MACD_SIGNAL : Nat := 9

def BBANDS_PERIOD : Nat := 20

def BBANDS_STD : ℚ := 2

/-- One OHLCV frame: the six columns produced by the Data Source
(`fetch_stock_data`). Dates are modelled as rationals (day index plus
time-of-day fraction); `opn` stands for the Open column (`open` is a Lean
keyword). -/
structure OHLCV where
  date : List ℚ
  opn : List ℚ
  high : List ℚ
  low : List ℚ
  close : List ℚ
  vol : List ℚ
deriving Repr, DecidableEq

/-- Generic one-step recursive smoother: `recSmooth seed upd x k` applies
`upd` `k` times to the seed, feeding `x 1, x 2, …` (steps after the seed).
Both the EMA recursion and Wilder smoothing (RMA) are instances. -/
def recSmooth (seed : ℚ) (upd : ℚ → ℚ → ℚ) (x : Nat → ℚ) : Nat → ℚ
  | 0 => seed
  | k + 1 => upd (recSmooth seed upd x k) (x (k + 1))

/-- EMA update with span `w`: alpha = 2/(w+1). -/
def emaUpd (w : Nat) (prev cur : ℚ) : ℚ :=
  (2 / ((w : ℚ) + 1)) * cur + (1 - 2 / ((w : ℚ) + 1)) * prev

/-- Wilder (RMA) update with period `p`: alpha = 1/p. -/
def wilderUpd (p : Nat) (prev cur : ℚ) : ℚ :=
  (((p : ℚ) - 1) * prev + cur) / (p : ℚ)

/-- Value of the EMA of span `w` at absolute index `i`; the recursion is
seeded at index `w - 1` with the SMA of the first `w` values, the
pandas-ta `ema` default. Meaningful for `w ≥ 1` and `i ≥ w - 1`. -/
def emaVal (xs : List ℚ) (w i : Nat) : ℚ :=
  recSmooth (windowMean xs (w - 1) w) (emaUpd w)
    (fun k => xs.getD (w - 1 + k) 0) (i - (w - 1))

/-- EMA column cell: NaN during the seed warm-up. Models `df.ta.ema`. -/
def emaCell (xs : List ℚ) (w i : Nat) : Cell :=
  if i + 1 < w then none else some (emaVal xs w i)

/-- SMA column cell: NaN until a full window exists. Models `df.ta.sma`. -/
def smaCell (xs : List ℚ) (w i : Nat) : Cell :=
  if i + 1 < w then none else some (windowMean xs i w)

/-- Close-to-close gain at index `i ≥ 1` (Wilder RSI ingredient). -/
def gainAt (c : List ℚ) (i : Nat) : ℚ :=
  max (c.getD i 0 - c.getD (i - 1) 0) 0

/-- Close-to-close loss at index `i ≥ 1` (Wilder RSI ingredient). -/
def lossAt (c : List ℚ) (i : Nat) : ℚ :=
  max (c.getD (i - 1) 0 - c.getD i 0) 0

/-- Wilder-smoothed average gain at index `i ≥ RSI_PERIOD`, seeded with
the plain mean of the first `RSI_PERIOD` gains (indices 1..RSI_PERIOD). -/
def avgGain (c : List ℚ) (i : Nat) : ℚ :=
  recSmooth ((((List.range RSI_PERIOD).map (fun t => gainAt c (t + 1))).sum) / (RSI_PERIOD : ℚ))
    (wilderUpd RSI_PERIOD) (fun k => gainAt c (RSI_PERIOD + k)) (i - RSI_PERIOD)

/-- Wilder-smoothed average loss, symmetric to `avgGain`. -/
def avgLoss (c : List ℚ) (i : Nat) : ℚ :=
  recSmooth ((((List.range RSI_PERIOD).map (fun t => lossAt c (t + 1))).sum) / (RSI_PERIOD : ℚ))
    (wilderUpd RSI_PERIOD) (fun k => lossAt c (RSI_PERIOD + k)) (i - RSI_PERIOD)

/-- RSI(14) cell, the pandas-ta form `100 * ag / (ag + al)`: NaN during
warm-up and NaN when both smoothed averages vanish (the float 0/0).
Models `df.ta.rsi(length=RSI_PERIOD)`. -/
def rsiCell (c : List ℚ) (i : Nat) : Cell :=
  if i < RSI_PERIOD then none
  else
    if avgGain c i + avgLoss c i = 0 then none
    else some (100 * avgGain c i / (avgGain c i + avgLoss c i))

/-- MACD line value at index `i ≥ MACD_SLOW - 1` (EMA12 - EMA26). -/
def macdVal (c : List ℚ) (i : Nat) : ℚ :=
  emaVal c MACD_FAST i - emaVal c MACD_SLOW i

/-- MACD line cell. Models the MACD_12_26_9 column of `df.ta.macd`. -/
def macdCell (c : List ℚ) (i : Nat) : Cell :=
  if i + 1 < MACD_SLOW then none else some (macdVal c i)

/-- First index at which the MACD signal line is defined:
`MACD_SLOW - 1 + MACD_SIGNAL - 1 = 33`. -/
def MACDS_START : Nat := MACD_SLOW - 1 + (MACD_SIGNAL - 1)

/-- MACD signal value at index `i ≥ MACDS_START`: EMA(9) of the MACD
line, seeded with the mean of its first nine defined values. -/
def macdsVal (c : List ℚ) (i : Nat) : ℚ :=
  recSmooth ((((List.range MACD_SIGNAL).map (fun t => macdVal c (MACD_SLOW - 1 + t))).sum) / (MACD_SIGNAL : ℚ))
    (emaUpd MACD_SIGNAL) (fun k => macdVal c (MACDS_START + k)) (i - MACDS_START)

/-- MACD signal cell. Models the MACDs_12_26_9 column of `df.ta.macd`. -/
def macdsCell (c : List ℚ) (i : Nat) : Cell :=
  if i < MACDS_START then none else some (macdsVal c i)

/-- MACD histogram cell (line minus signal), the MACDh_12_26_9 column. -/
def macdhCell (c : List ℚ) (i : Nat) : Cell :=
  cSub (macdCell c i) (macdsCell c i)

/-! Bollinger bands. The standard deviation is the square root of the
rational sample variance and is irrational in general, so the embedding
takes the square-root map `sq : ℚ → ℚ` as an explicit parameter. No
claim in this development inspects a band value: only the definedness of
the band cells matters downstream, and for that the faithful requirement
on `sq` is that of the real square root on the nonnegatives,
`sq v = 0 ↔ v ≤ 0`, which the chosen concrete instance satisfies. -/

/-- Concrete stand-in for the square root used when evaluating the
pipeline on concrete inputs; it agrees with the real square root on
whether the result is zero, the only fact any claim consumes. -/
def mockSqrt (q : ℚ) : ℚ :=
  if q ≤ 0 then 0 else 1

/-- Bollinger middle band (SMA20), the BBM_20_2.0 column. -/
def bbmCell (c : List ℚ) (i : Nat) : Cell :=
  smaCell c BBANDS_PERIOD i

/-- Bollinger lower band, BBL_20_2.0: mid minus `BBANDS_STD` deviations. -/
def bblCell (sq : ℚ → ℚ) (c : List ℚ) (i : Nat) : Cell :=
  if i + 1 < BBANDS_PERIOD then none
  else some (windowMean c i BBANDS_PERIOD - BBANDS_STD * sq (windowVar c i BBANDS_PERIOD))

/-- Bollinger upper band, BBU_20_2.0: mid plus `BBANDS_STD` deviations. -/
def bbuCell (sq : ℚ → ℚ) (c : List ℚ) (i : Nat) : Cell :=
  if i + 1 < BBANDS_PERIOD then none
  else some (windowMean c i BBANDS_PERIOD + BBANDS_STD * sq (windowVar c i BBANDS_PERIOD))

/-- Bollinger bandwidth, BBB_20_2.0 = 100 (upper - lower) / mid; NaN when
the middle band is zero. -/
def bbbCell (sq : ℚ → ℚ) (c : List ℚ) (i : Nat) : Cell :=
  if i + 1 < BBANDS_PERIOD then none
  else cDivQ (100 * (2 * BBANDS_STD * sq (windowVar c i BBANDS_PERIOD)))
    (windowMean c i BBANDS_PERIOD)

/-- Bollinger percent-b, BBP_20_2.0 = (close - lower) / (upper - lower);
NaN when the band is degenerate (zero deviation, the float 0/0). -/
def bbpCell (sq : ℚ → ℚ) (c : List ℚ) (i : Nat) : Cell :=
  if i + 1 < BBANDS_PERIOD then none
  else cDivQ (c.getD i 0 - (windowMean c i BBANDS_PERIOD - BBANDS_STD * sq (windowVar c i BBANDS_PERIOD)))
    (2 * BBANDS_STD * sq (windowVar c i BBANDS_PERIOD))

/-- Raw stochastic %K at index `i`: 100 (close - lowest low 14) /
(highest high 14 - lowest low 14); NaN during warm-up and on a flat
window. -/
def fastkCell (h l c : List ℚ) (i : Nat) : Cell :=
  if i + 1 < 14 then none
  else cDivQ (100 * (c.getD i 0 - windowMin l i 14))
    (windowMax h i 14 - windowMin l i 14)

/-- Mean of a width-`w` window of an already-NaN-capable column; NaN
propagates, as in a pandas rolling mean. -/
def cWindowMean (f : Nat → Cell) (i w : Nat) : Cell :=
  if i + 1 < w then none
  else (((List.range w).map (fun t => f (i + 1 - w + t))).foldl cAdd (some 0)).map
    (fun s => s / (w : ℚ))

/-- Smoothed %K, the STOCHk_14_3_3 column of `df.ta.stoch` (SMA(3) of the
raw %K). -/
def stochkCell (h l c : List ℚ) (i : Nat) : Cell :=
  cWindowMean (fastkCell h l c) i 3

/-- Percent %D, the STOCHd_14_3_3 column (SMA(3) of the smoothed %K). -/
def stochdCell (h l c : List ℚ) (i : Nat) : Cell :=
  cWindowMean (stochkCell h l c) i 3

/-- Williams %R(14), the WILLR_14 column: 100 (close - highest high) /
(highest high - lowest low); NaN during warm-up and on a flat window. -/
def willrCell (h l c : List ℚ) (i : Nat) : Cell :=
  if i + 1 < 14 then none
  else cDivQ (100 * (c.getD i 0 - windowMax h i 14))
    (windowMax h i 14 - windowMin l i 14)

/-- True range at index `i ≥ 1` (the first true range is NaN because it
needs the previous close). -/
def trAt (h l c : List ℚ) (i : Nat) : ℚ :=
  max (h.getD i 0 - l.getD i 0)
    (max (abs (h.getD i 0 - c.getD (i - 1) 0)) (abs (l.getD i 0 - c.getD (i - 1) 0)))

/-- ATR(14) value at index `i ≥ RSI_PERIOD` (the source passes the RSI
period as the ATR length): Wilder smoothing of the true range, seeded
with the mean of the first fourteen true ranges. -/
def atrVal (h l c : List ℚ) (i : Nat) : ℚ :=
  recSmooth ((((List.range RSI_PERIOD).map (fun t => trAt h l c (t + 1))).sum) / (RSI_PERIOD : ℚ))
    (wilderUpd RSI_PERIOD) (fun k => trAt h l c (RSI_PERIOD + k)) (i - RSI_PERIOD)

/-- ATR cell, the ATRr_14 column of `df.ta.atr(length=RSI_PERIOD)`. -/
def atrCell (h l c : List ℚ) (i : Nat) : Cell :=
  if i < RSI_PERIOD then none else some (atrVal h l c i)

/-- Money-flow volume at index `i` (Accumulation/Distribution ingredient);
NaN when high = low (the float 0/0). -/
def mfvAt (h l c v : List ℚ) (i : Nat) : Cell :=
  (cDivQ (2 * c.getD i 0 - h.getD i 0 - l.getD i 0) (h.getD i 0 - l.getD i 0)).map
    (fun q => q * v.getD i 0)

/-- Running A/D sum: a pandas `cumsum` with its default `skipna=True`,
so NaN money-flow entries contribute nothing to the running total. -/
def adAcc (h l c v : List ℚ) : Nat → ℚ
  | 0 => (mfvAt h l c v 0).getD 0
  | i + 1 => adAcc h l c v i + (mfvAt h l c v (i + 1)).getD 0

/-- Accumulation/Distribution cell, the AD column of `df.ta.ad`: NaN
exactly where the money-flow volume is NaN, with the skipped-NaN
running sum elsewhere. -/
def adCell (h l c v : List ℚ) (i : Nat) : Cell :=
  if (mfvAt h l c v i).isSome then some (adAcc h l c v i) else none

/-- OBV sign of bar `i`: pandas-ta forces the first sign to +1 and uses
the sign of the close-to-close difference afterwards. -/
def obvSign (c : List ℚ) (i : Nat) : ℚ :=
  if i = 0 then 1
  else if c.getD (i - 1) 0 < c.getD i 0 then 1
  else if c.getD i 0 < c.getD (i - 1) 0 then -1
  else 0

/-- Running OBV total: cumulative sum of signed volume. -/
def obvAcc (c v : List ℚ) : Nat → ℚ
  | 0 => obvSign c 0 * v.getD 0 0
  | i + 1 => obvAcc c v i + obvSign c (i + 1) * v.getD (i + 1) 0

/-- On-balance-volume cell, the OBV column of `df.ta.obv`; it is defined
from the very first row. -/
def obvCell (c v : List ℚ) (i : Nat) : Cell :=
  some (obvAcc c v i)

/-- Percent change of a column, `Series.pct_change`: NaN on the first row
and on a zero previous value (the float division). -/
def pctChangeCell (xs : List ℚ) (i : Nat) : Cell :=
  if i = 0 then none
  else cDivQ (xs.getD i 0 - xs.getD (i - 1) 0) (xs.getD (i - 1) 0)

/-- High_Low_Pct column: (High - Low) / Close. -/
def highLowPctCell (h l c : List ℚ) (i : Nat) : Cell :=
  cDivQ (h.getD i 0 - l.getD i 0) (c.getD i 0)

/-- Open_Close_Pct column: (Close - Open) / Open. -/
def openClosePctCell (o c : List ℚ) (i : Nat) : Cell :=
  cDivQ (c.getD i 0 - o.getD i 0) (o.getD i 0)

/-- Support column: 20-row rolling minimum of Low. -/
def supportCell (l : List ℚ) (i : Nat) : Cell :=
  if i + 1 < 20 then none else some (windowMin l i 20)

/-- Resistance column: 20-row rolling maximum of High. -/
def resistanceCell (h : List ℚ) (i : Nat) : Cell :=
  if i + 1 < 20 then none else some (windowMax h i 20)

/-- Distance_to_Support column: (Close - Support) / Close. -/
def distSupportCell (l c : List ℚ) (i : Nat) : Cell :=
  if i + 1 < 20 then none
  else cDivQ (c.getD i 0 - windowMin l i 20) (c.getD i 0)

/-- Distance_to_Resistance column: (Resistance - Close) / Close. -/
def distResistanceCell (h c : List ℚ) (i : Nat) : Cell :=
  if i + 1 < 20 then none
  else cDivQ (windowMax h i 20 - c.getD i 0) (c.getD i 0)

/-- Output shape of `calculate_advanced_indicators`: the base OHLCV
columns plus the twenty-six computed indicator columns, row-aligned. -/
structure Enriched where
  base : OHLCV
  rsi : List Cell
  sma20 : List Cell
  sma50 : List Cell
  ema12 : List Cell
  ema26 : List Cell
  macd : List Cell
  macds : List Cell
  macdh : List Cell
  bbl : List Cell
  bbm : List Cell
  bbu : List Cell
  bbb : List Cell
  bbp : List Cell
  stochk : List Cell
  stochd : List Cell
  willr : List Cell
  atr : List Cell
  ad : List Cell
  obv : List Cell
  priceChange : List Cell
  volumeChange : List Cell
  highLowPct : List Cell
  openClosePct : List Cell
  support : List Cell
  resistance : List Cell
  distSupport : List Cell
  distResistance : List Cell
deriving Repr, DecidableEq

/-- Materialize a per-index cell function as a column of `n` rows. -/
def mkCol (n : Nat) (f : Nat → Cell) : List Cell :=
  (List.range n).map f

/-- All indicator columns of `calculate_advanced_indicators`, computed
from the base columns; mirrors the body of the source function before
its final `dropna` (each pandas-ta call and custom-feature assignment
appends one row-aligned column). -/
def computeColumns (sq : ℚ → ℚ) (d : OHLCV) : Enriched :=
  let n := d.close.length
  { base := d
    rsi := mkCol n (rsiCell d.close)
    sma20 := mkCol n (smaCell d.close SMA_SHORT_PERIOD)
    sma50 := mkCol n (smaCell d.close SMA_LONG_PERIOD)
    ema12 := mkCol n (emaCell d.close MACD_FAST)
    ema26 := mkCol n (emaCell d.close MACD_SLOW)
    macd := mkCol n (macdCell d.close)
    macds := mkCol n (macdsCell d.close)
    macdh := mkCol n (macdhCell d.close)
    bbl := mkCol n (bblCell sq d.close)
    bbm := mkCol n (bbmCell d.close)
    bbu := mkCol n (bbuCell sq d.close)
    bbb := mkCol n (bbbCell sq d.close)
    bbp := mkCol n (bbpCell sq d.close)
    stochk := mkCol n (stochkCell d.high d.low d.close)
    stochd := mkCol n (stochdCell d.high d.low d.close)
    willr := mkCol n (willrCell d.high d.low d.close)
    atr := mkCol n (atrCell d.high d.low d.close)
    ad := mkCol n (adCell d.high d.low d.close d.vol)
    obv := mkCol n (obvCell d.close d.vol)
    priceChange := mkCol n (pctChangeCell d.close)
    volumeChange := mkCol n (pctChangeCell d.vol)
    highLowPct := mkCol n (highLowPctCell d.high d.low d.close)
    openClosePct := mkCol n (openClosePctCell d.opn d.close)
    support := mkCol n (supportCell d.low)
    resistance := mkCol n (resistanceCell d.high)
    distSupport := mkCol n (distSupportCell d.low d.close)
    distResistance := mkCol n (distResistanceCell d.high d.close) }

/-- The computed columns as a list, in source order. -/
def indicatorCols (e : Enriched) : List (List Cell) :=
  [e.rsi, e.sma20, e.sma50, e.ema12, e.ema26, e.macd, e.macds, e.macdh,
   e.bbl, e.bbm, e.bbu, e.bbb, e.bbp, e.stochk, e.stochd, e.willr, e.atr,
   e.ad, e.obv, e.priceChange, e.volumeChange, e.highLowPct,
   e.openClosePct, e.support, e.resistance, e.distSupport, e.distResistance]

/-- The per-index cell functions of the computed columns, in the same
source order as `indicatorCols`. -/
def cellFns (sq : ℚ → ℚ) (d : OHLCV) : List (Nat → Cell) :=
  [rsiCell d.close,
   smaCell d.close SMA_SHORT_PERIOD,
   smaCell d.close SMA_LONG_PERIOD,
   emaCell d.close MACD_FAST,
   emaCell d.close MACD_SLOW,
   macdCell d.close,
   macdsCell d.close,
   macdhCell d.close,
   bblCell sq d.close,
   bbmCell d.close,
   bbuCell sq d.close,
   bbbCell sq d.close,
   bbpCell sq d.close,
   stochkCell d.high d.low d.close,
   stochdCell d.high d.low d.close,
   willrCell d.high d.low d.close,
   atrCell d.high d.low d.close,
   adCell d.high d.low d.close d.vol,
   obvCell d.close d.vol,
   pctChangeCell d.close,
   pctChangeCell d.vol,
   highLowPctCell d.high d.low d.close,
   openClosePctCell d.opn d.close,
   supportCell d.low,
   resistanceCell d.high,
   distSupportCell d.low d.close,
   distResistanceCell d.high d.close]

/-- Row `i` carries no NaN in any computed column (the base OHLCV columns
are total in this model, matching the mock generator's output). -/
def rowDefined (sq : ℚ → ℚ) (d : OHLCV) (i : Nat) : Bool :=
  (cellFns sq d).all (fun f => (f i).isSome)

/-- Indices of the rows `df.dropna(inplace=True)` keeps, in order. -/
def keptRows (sq : ℚ → ℚ) (d : OHLCV) : List Nat :=
  (List.range d.close.length).filter (rowDefined sq d)

/-- Restriction of a total column to a list of row indices. -/
def selectQ (xs : List ℚ) (rows : List Nat) : List ℚ :=
  rows.map (fun i => xs.getD i 0)

/-- Restriction of a NaN-capable column to a list of row indices. -/
def selectC (xs : List Cell) (rows : List Nat) : List Cell :=
  rows.map (fun i => xs.getD i none)

/-- Restriction of every column of an enriched frame to a row subset. -/
def selectRows (e : Enriched) (rows : List Nat) : Enriched :=
  { base :=
      { date := selectQ e.base.date rows
        opn := selectQ e.base.opn rows
        high := selectQ e.base.high rows
        low := selectQ e.base.low rows
        close := selectQ e.base.close rows
        vol := selectQ e.base.vol rows }
    rsi := selectC e.rsi rows
    sma20 := selectC e.sma20 rows
    sma50 := selectC e.sma50 rows
    ema12 := selectC e.ema12 rows
    ema26 := selectC e.ema26 rows
    macd := selectC e.macd rows
    macds := selectC e.macds rows
    macdh := selectC e.macdh rows
    bbl := selectC e.bbl rows
    bbm := selectC e.bbm rows
    bbu := selectC e.bbu rows
    bbb := selectC e.bbb rows
    bbp := selectC e.bbp rows
    stochk := selectC e.stochk rows
    stochd := selectC e.stochd rows
    willr := selectC e.willr rows
    atr := selectC e.atr rows
    ad := selectC e.ad rows
    obv := selectC e.obv rows
    priceChange := selectC e.priceChange rows
    volumeChange := selectC e.volumeChange rows
    highLowPct := selectC e.highLowPct rows
    openClosePct := selectC e.openClosePct rows
    support := selectC e.support rows
    resistance := selectC e.resistance rows
    distSupport := selectC e.distSupport rows
    distResistance := selectC e.distResistance rows }

/-- Embedding of `calculate_advanced_indicators` (technical_analysis.py):
reject a missing or empty frame, compute every indicator column from the
OHLCV columns, then drop every row holding a NaN in any column. The
source's catch-all exception handler is unreachable in this model because
the frame is well-formed by construction. -/
def calculate_advanced_indicators (sq : ℚ → ℚ) (df : Option OHLCV) : Option Enriched :=
  match df with
  | none => none
  | some d =>
    if d.close.length = 0 then none
    else some (selectRows (computeColumns sq d) (keptRows sq d))

/-- Embedding of a second `calculate_advanced_indicators` call on an
already-enriched frame: every pandas-ta call and custom-feature
assignment reads only the OHLCV base columns and overwrites its own
output column, so re-enrichment equals enrichment of the surviving base
columns. -/
def enrichAgain (sq : ℚ → ℚ) (e : Enriched) : Option Enriched :=
  calculate_advanced_indicators sq (some e.base)



/-- Partial signed-volume sum: the OBV contribution of bars
`k+1 .. k+j`. Helper for evaluating the cumulative `obvAcc` in pieces. -/
def obvStretch (c v : List ℚ) (k : Nat) : Nat → ℚ
  | 0 => 0
  | j + 1 => obvStretch c v k j + obvSign c (k + j + 1) * v.getD (k + j + 1) 0

/-! Concrete data for exercising the indicator engine: a 99-bar series
with linearly rising prices and volumes. Ninety-nine bars is the smallest
count for which enriching twice yields a non-empty frame (the SMA(50)
warm-up of 49 rows is paid once per enrichment). -/

/-- Concrete 99-bar OHLCV input series. -/
def c3Input : OHLCV :=
  { date := [0, 1, 2, 3, 4, 5, 6, 7, 8, 9, 10, 11, 12, 13, 14, 15, 16, 17, 18, 19, 20, 21, 22, 23, 24, 25, 26, 27, 28, 29, 30, 31, 32, 33, 34, 35, 36, 37, 38, 39, 40, 41, 42, 43, 44, 45, 46, 47, 48, 49, 50, 51, 52, 53, 54, 55, 56, 57, 58, 59, 60, 61, 62, 63, 64, 65, 66, 67, 68, 69, 70, 71, 72, 73, 74, 75, 76, 77, 78, 79, 80, 81, 82, 83, 84, 85, 86, 87, 88, 89, 90, 91, 92, 93, 94, 95, 96, 97, 98]
    opn := [199/2, 201/2, 203/2, 205/2, 207/2, 209/2, 211/2, 213/2, 215/2, 217/2, 219/2, 221/2, 223/2, 225/2, 227/2, 229/2, 231/2, 233/2, 235/2, 237/2, 239/2, 241/2, 243/2, 245/2, 247/2, 249/2, 251/2, 253/2, 255/2, 257/2, 259/2, 261/2, 263/2, 265/2, 267/2, 269/2, 271/2, 273/2, 275/2, 277/2, 279/2, 281/2, 283/2, 285/2, 287/2, 289/2, 291/2, 293/2, 295/2, 297/2, 299/2, 301/2, 303/2, 305/2, 307/2, 309/2, 311/2, 313/2, 315/2, 317/2, 319/2, 321/2, 323/2, 325/2, 327/2, 329/2, 331/2, 333/2, 335/2, 337/2, 339/2, 341/2, 343/2, 345/2, 347/2, 349/2, 351/2, 353/2, 355/2, 357/2, 359/2, 361/2, 363/2, 365/2, 367/2, 369/2, 371/2, 373/2, 375/2, 377/2, 379/2, 381/2, 383/2, 385/2, 387/2, 389/2, 391/2, 393/2, 395/2]
    high := [101, 102, 103, 104, 105, 106, 107, 108, 109, 110, 111, 112, 113, 114, 115, 116, 117, 118, 119, 120, 121, 122, 123, 124, 125, 126, 127, 128, 129, 130, 131, 132, 133, 134, 135, 136, 137, 138, 139, 140, 141, 142, 143, 144, 145, 146, 147, 148, 149, 150, 151, 152, 153, 154, 155, 156, 157, 158, 159, 160, 161, 162, 163, 164, 165, 166, 167, 168, 169, 170, 171, 172, 173, 174, 175, 176, 177, 178, 179, 180, 181, 182, 183, 184, 185, 186, 187, 188, 189, 190, 191, 192, 193, 194, 195, 196, 197, 198, 199]
    low := [99, 100, 101, 102, 103, 104, 105, 106, 107, 108, 109, 110, 111, 112, 113, 114, 115, 116, 117, 118, 119, 120, 121, 122, 123, 124, 125, 126, 127, 128, 129, 130, 131, 132, 133, 134, 135, 136, 137, 138, 139, 140, 141, 142, 143, 144, 145, 146, 147, 148, 149, 150, 151, 152, 153, 154, 155, 156, 157, 158, 159, 160, 161, 162, 163, 164, 165, 166, 167, 168, 169, 170, 171, 172, 173, 174, 175, 176, 177, 178, 179, 180, 181, 182, 183, 184, 185, 186, 187, 188, 189, 190, 191, 192, 193, 194, 195, 196, 197]
    close := [100, 101, 102, 103, 104, 105, 106, 107, 108, 109, 110, 111, 112, 113, 114, 115, 116, 117, 118, 119, 120, 121, 122, 123, 124, 125, 126, 127, 128, 129, 130, 131, 132, 133, 134, 135, 136, 137, 138, 139, 140, 141, 142, 143, 144, 145, 146, 147, 148, 149, 150, 151, 152, 153, 154, 155, 156, 157, 158, 159, 160, 161, 162, 163, 164, 165, 166, 167, 168, 169, 170, 171, 172, 173, 174, 175, 176, 177, 178, 179, 180, 181, 182, 183, 184, 185, 186, 187, 188, 189, 190, 191, 192, 193, 194, 195, 196, 197, 198]
    vol := [10, 11, 12, 13, 14, 15, 16, 17, 18, 19, 20, 21, 22, 23, 24, 25, 26, 27, 28, 29, 30, 31, 32, 33, 34, 35, 36, 37, 38, 39, 40, 41, 42, 43, 44, 45, 46, 47, 48, 49, 50, 51, 52, 53, 54, 55, 56, 57, 58, 59, 60, 61, 62, 63, 64, 65, 66, 67, 68, 69, 70, 71, 72, 73, 74, 75, 76, 77, 78, 79, 80, 81, 82, 83, 84, 85, 86, 87, 88, 89, 90, 91, 92, 93, 94, 95, 96, 97, 98, 99, 100, 101, 102, 103, 104, 105, 106, 107, 108] }

/-- The base columns surviving the first enrichment of `c3Input`:
rows 49..98 of the input. -/
def c3Base : OHLCV :=
  { date := [49, 50, 51, 52, 53, 54, 55, 56, 57, 58, 59, 60, 61, 62, 63, 64, 65, 66, 67, 68, 69, 70, 71, 72, 73, 74, 75, 76, 77, 78, 79, 80, 81, 82, 83, 84, 85, 86, 87, 88, 89, 90, 91, 92, 93, 94, 95, 96, 97, 98]
    opn := [297/2, 299/2, 301/2, 303/2, 305/2, 307/2, 309/2, 311/2, 313/2, 315/2, 317/2, 319/2, 321/2, 323/2, 325/2, 327/2, 329/2, 331/2, 333/2, 335/2, 337/2, 339/2, 341/2, 343/2, 345/2, 347/2, 349/2, 351/2, 353/2, 355/2, 357/2, 359/2, 361/2, 363/2, 365/2, 367/2, 369/2, 371/2, 373/2, 375/2, 377/2, 379/2, 381/2, 383/2, 385/2, 387/2, 389/2, 391/2, 393/2, 395/2]
    high := [150, 151, 152, 153, 154, 155, 156, 157, 158, 159, 160, 161, 162, 163, 164, 165, 166, 167, 168, 169, 170, 171, 172, 173, 174, 175, 176, 177, 178, 179, 180, 181, 182, 183, 184, 185, 186, 187, 188, 189, 190, 191, 192, 193, 194, 195, 196, 197, 198, 199]
    low := [148, 149, 150, 151, 152, 153, 154, 155, 156, 157, 158, 159, 160, 161, 162, 163, 164, 165, 166, 167, 168, 169, 170, 171, 172, 173, 174, 175, 176, 177, 178, 179, 180, 181, 182, 183, 184, 185, 186, 187, 188, 189, 190, 191, 192, 193, 194, 195, 196, 197]
    close := [149, 150, 151, 152, 153, 154, 155, 156, 157, 158, 159, 160, 161, 162, 163, 164, 165, 166, 167, 168, 169, 170, 171, 172, 173, 174, 175, 176, 177, 178, 179, 180, 181, 182, 183, 184, 185, 186, 187, 188, 189, 190, 191, 192, 193, 194, 195, 196, 197, 198]
    vol := [59, 60, 61, 62, 63, 64, 65, 66, 67, 68, 69, 70, 71, 72, 73, 74, 75, 76, 77, 78, 79, 80, 81, 82, 83, 84, 85, 86, 87, 88, 89, 90, 91, 92, 93, 94, 95, 96, 97, 98, 99, 100, 101, 102, 103, 104, 105, 106, 107, 108] }

/-- Output of the first enrichment of `c3Input`. -/
def c3Run1 : Enriched :=
  selectRows (computeColumns mockSqrt c3Input) (List.range' 49 50)

/-- Output of re-enriching the first output (its surviving base rows). -/
def c3Run2 : Enriched :=
  selectRows (computeColumns mockSqrt c3Base) (List.range' 49 1)

/-- Formalization of the idempotence claim's unchanged-columns clause:
whenever a second enrichment of an enrichment output succeeds, every
previously computed indicator column agrees, at every pair of
date-matched rows, with its recomputation. (The claim conjoins this with
a no-crash clause; refuting this clause refutes the claim.) -/
def EnrichTwiceUnchanged (sq : ℚ → ℚ) (d : OHLCV) : Prop :=
  ∀ e1, calculate_advanced_indicators sq (some d) = some e1 →
  ∀ e2, enrichAgain sq e1 = some e2 →
  ∀ i1 i2, i1 < e1.base.date.length → i2 < e2.base.date.length →
  e1.base.date.getD i1 0 = e2.base.date.getD i2 0 →
  ∀ p ∈ List.zip (indicatorCols e1) (indicatorCols e2),
    p.1.getD i1 none = p.2.getD i2 none


/-! Strategy Evaluator (strategy.py). The thresholds RSI_OVERSOLD,
STOCH_OVERSOLD and MIN_SUPPORT_DISTANCE are imported from `src/config.py`,
which is not under `src/`. Modelled from the spec: the spec names them as
config constants without fixing values (section 4.3), so they stay
parameters of the embedding and every theorem holds for all valuations. -/

/-- Threshold constants of the strategy, normally held in config.py. -/
structure Config where
  rsiOversold : ℚ
  stochOversold : ℚ
  minSupportDistance : ℚ
deriving Repr, DecidableEq

/-- Cell of a column at row `i` (NaN when out of range). -/
def colCell (col : List Cell) (i : Nat) : Cell :=
  col.getD i none

/-- Cell of `Series.shift(1)` at row `i`: NaN on the first row. -/
def shiftCell (col : List Cell) (i : Nat) : Cell :=
  if i = 0 then none else colCell col (i - 1)

/-- Comparison of a cell against a scalar threshold from above; False
against NaN, the pandas semantics. -/
def cGtQ (x : Cell) (q : ℚ) : Bool :=
  match x with
  | some a => decide (q < a)
  | none => false

/-- Condition rsi_oversold: RSI_14 < RSI_OVERSOLD. -/
def rsi_oversold (cfg : Config) (e : Enriched) (i : Nat) : Bool :=
  cLt (colCell e.rsi i) cfg.rsiOversold

/-- Condition sma_crossover: SMA_20 above SMA_50 on this row and not
above on the previous row (shift(1)); both conjuncts are False wherever a
NaN is involved. -/
def sma_crossover (e : Enriched) (i : Nat) : Bool :=
  cGt (colCell e.sma20 i) (colCell e.sma50 i) &&
    cLe (shiftCell e.sma20 i) (shiftCell e.sma50 i)

/-- Condition volume_confirm: Volume above its own 20-row rolling mean
(the rolling mean is computed on the frame the evaluator receives). -/
def volume_confirm (e : Enriched) (i : Nat) : Bool :=
  cGt (some (e.base.vol.getD i 0)) (smaCell e.base.vol 20 i)

/-- Condition macd_bullish: MACD line above its signal line. -/
def macd_bullish (e : Enriched) (i : Nat) : Bool :=
  cGt (colCell e.macd i) (colCell e.macds i)

/-- Condition stoch_oversold: STOCHk below STOCH_OVERSOLD. -/
def stoch_oversold (cfg : Config) (e : Enriched) (i : Nat) : Bool :=
  cLt (colCell e.stochk i) cfg.stochOversold

/-- Condition price_above_support: Distance_to_Support above
MIN_SUPPORT_DISTANCE. -/
def price_above_support (cfg : Config) (e : Enriched) (i : Nat) : Bool :=
  cGtQ (colCell e.distSupport i) cfg.minSupportDistance

/-- The four-way conjunction the source binds to the (misnamed) local
`strong_buy`; it is the standard-buy condition, assigned Signal 1. -/
def strong_buy (cfg : Config) (e : Enriched) (i : Nat) : Bool :=
  rsi_oversold cfg e i && sma_crossover e i && volume_confirm e i &&
    macd_bullish e i

/-- The source's `confirmed_buy`: the standard conjunction plus the two
extra confirmations, assigned Signal 2. -/
def confirmed_buy (cfg : Config) (e : Enriched) (i : Nat) : Bool :=
  strong_buy cfg e i && stoch_oversold cfg e i && price_above_support cfg e i

/-- Per-row Signal value: 0, overwritten to 1 on standard-buy rows, then
overwritten to 2 on confirmed-buy rows (the source's two `.loc`
assignments in that order). -/
def signalAt (cfg : Config) (e : Enriched) (i : Nat) : Nat :=
  let s1 := if strong_buy cfg e i then 1 else 0
  if confirmed_buy cfg e i then 2 else s1

/-- The integer Signal column added to the caller's frame. -/
def signalCol (cfg : Config) (e : Enriched) : List Nat :=
  (List.range e.base.close.length).map (signalAt cfg e)

/-- Result of the Strategy Evaluator: the caller's frame after the
in-place mutation (only the Signal column was added; no other column and
no row was touched), and the extracted buy-signal subset rows with their
Signal_Type labels (the pandas `.map` yielding NaN off 1 and 2). -/
structure StrategyResult where
  frame : Enriched
  signal : List Nat
  buyRows : List Nat
  buyTypes : List (Option String)
deriving Repr, DecidableEq

/-- Embedding of `apply_enhanced_trading_strategy` (strategy.py): reject
a missing or empty frame (the RSI-column presence check always passes on
this typed frame, which carries every indicator column); compute the six
row conditions, write the Signal column, and extract the rows with
Signal > 0 tagged BUY / STRONG_BUY. The catch-all handler is unreachable
in this model. -/
def apply_enhanced_trading_strategy (cfg : Config) (df : Option Enriched) :
    Option StrategyResult :=
  match df with
  | none => none
  | some e =>
    if e.base.close.length = 0 then none
    else
      some { frame := e
             signal := signalCol cfg e
             buyRows := (List.range e.base.close.length).filter
               (fun i => 0 < (signalCol cfg e).getD i 0)
             buyTypes := ((List.range e.base.close.length).filter
               (fun i => 0 < (signalCol cfg e).getD i 0)).map
               (fun i => if (signalCol cfg e).getD i 0 = 1 then some "BUY"
                 else if (signalCol cfg e).getD i 0 = 2 then some "STRONG_BUY"
                 else none) }

/-! Model Trainer (ml_models.py). The sklearn calls (stratified split,
scaler, the two classifiers, accuracy_score, classification_report) are
external collaborators: each model's outcome enters the embedding as a
parameter holding its test metrics, or `none` when its fit raised and
the source's inner handler skipped it. The guards, label construction,
dropna row filtering, strictly-greater selection fold, and the percent
scaling of the returned accuracy are embedded from the source. -/

/-- Test metrics of one trained model, as the source stores them in its
`results` dict under the keys accuracy, precision, recall and f1_score
(raw fractions from sklearn; `precision`/`recall` are reserved words
here, hence the Val suffixes). -/
structure Metrics where
  accuracy : ℚ
  precisionVal : ℚ
  recallVal : ℚ
  f1 : ℚ
deriving Repr, DecidableEq

/-- Target column `(df.Close.shift(-1) > df.Close).astype(int)`: on the
final row the comparison is NaN > Close, which pandas evaluates to
False, so the final row receives the integer label 0 - it is not NaN and
is therefore not dropped. -/
def targetCol (c : List ℚ) : List Nat :=
  (List.range c.length).map (fun i =>
    if i + 1 < c.length then (if c.getD i 0 < c.getD (i + 1) 0 then 1 else 0)
    else 0)

/-- The twenty-one candidate feature columns, in the source's
`ml_features` order; on this typed frame every candidate is present, so
`available_features` is all of them. -/
def mlFeatureCols (e : Enriched) : List (List Cell) :=
  [e.rsi, e.macd, e.macds, e.macdh, e.stochk, e.stochd, e.willr,
   e.bbl, e.bbm, e.bbu, e.bbb, e.bbp, e.atr, e.ad, e.obv,
   e.priceChange, e.volumeChange, e.highLowPct, e.openClosePct,
   e.distSupport, e.distResistance]

/-- Indices of the rows of `ml_df = df[features + [Target]].dropna()`:
the Target column is integer-valued on every row (including the last),
so rows are dropped only for feature NaNs. The stratified split hands
exactly these rows to the two fits, partitioned into train and test. -/
def mlRows (e : Enriched) : List Nat :=
  (List.range e.base.close.length).filter
    (fun i => (mlFeatureCols e).all (fun col => (col.getD i none).isSome))

/-- One step of the best-model fold: a challenger that trained replaces
the incumbent only with strictly higher accuracy. -/
def selStep (best : Option String × ℚ) (entry : String × Option Metrics) :
    Option String × ℚ :=
  match entry.2 with
  | none => best
  | some m => if best.2 < m.accuracy then (some entry.1, m.accuracy) else best

/-- The fixed iteration order of the source's `models` dict. -/
def modelEntries (dt lr : Option Metrics) : List (String × Option Metrics) :=
  [("Decision Tree", dt), ("Logistic Regression", lr)]

/-- Return shape of `train_ensemble_models`: the `(None, 0, {})` sentinel
or the best model's name, its accuracy as a rounded percentage, and the
per-model raw metrics stored in the details dict. -/
inductive TrainOutput where
  | empty
  | success (bestModel : String) (accuracyPct : ℚ)
      (details : List (String × Metrics))
deriving Repr, DecidableEq

/-- Embedding of `train_ensemble_models` (ml_models.py). -/
def train_ensemble_models (dt lr : Option Metrics) (df : Option Enriched) :
    TrainOutput :=
  match df with
  | none => .empty
  | some e =>
    if e.base.close.length = 0 then .empty
    else if (mlFeatureCols e).length < 5 then .empty
    else
      match ((modelEntries dt lr).foldl selStep (none, 0)).1 with
      | none => .empty
      | some name =>
        .success name
          (round2 (((modelEntries dt lr).foldl selStep (none, 0)).2 * 100))
          ((modelEntries dt lr).filterMap
            (fun ent => ent.2.map (fun m => (ent.1, m))))


/-! Data Source (data_loader.py). The numpy generator, numpy's `exp`,
and the per-process Python string hash are external collaborators,
modelled as explicit parameters: `stream seed pos` is the value of the
`pos`-th variate drawn from the generator seeded with `seed` (the five
draw arrays of the source consume consecutive blocks of one stream),
`expFn` stands for `np.exp`, and `hashFn` for the process-fixed
`hash` on strings. Wall-clock time (`datetime.now()`) enters as an
explicit `Clock` value. -/

/-- A call's clock reading: whole-day index (epoch chosen so that
`day % 7 < 5` is a business day) plus the time-of-day fraction that
`datetime.now()` carries into the generated timestamps. -/
structure Clock where
  day : ℤ
  tod : ℚ
deriving Repr, DecidableEq

/-- Per-ticker synthetic parameters (the source's `ticker_params` dict),
with the documented defaults for unknown tickers. -/
structure MockParams where
  basePrice : ℚ
  volatility : ℚ
  trend : ℚ
deriving Repr, DecidableEq

/-- The fixed per-ticker lookup table of `generate_enhanced_mock_data`. -/
def ticker_params (t : String) : MockParams :=
  if t = "RELIANCE.NS" then ⟨2400, 1/40, 1/5000⟩
  else if t = "TCS.NS" then ⟨3500, 1/50, 3/10000⟩
  else if t = "HDFCBANK.NS" then ⟨1600, 3/100, 1/10000⟩
  else if t = "INFY.NS" then ⟨1400, 1/40, 1/5000⟩
  else if t = "HINDUNILVR.NS" then ⟨2600, 9/500, 1/10000⟩
  else ⟨1000, 1/40, 1/10000⟩

/-- Bar count per period string (source line `days = 130 if ... else
65 if ... else 260`). -/
def daysFor (period : String) : Nat :=
  if period = "6mo" then 130 else if period = "3mo" then 65 else 260

/-- Calendar padding of the lookback window, `int(days * 1.4)`. -/
def padFor (days : Nat) : Nat :=
  days * 14 / 10

/-- The business days (weekday < 5) in the closed day interval
`[a, b]`, ascending. -/
def bdaysBetween (a b : ℤ) : List ℤ :=
  ((List.range (b - a).toNat.succ).map (fun k => a + k)).filter
    (fun d => d % 7 < 5)

/-- The Date column: `pd.date_range(start, end, freq=B)[:days]` - the
business days of the padded window, each timestamp carrying the
time-of-day of the `datetime.now()` call, truncated to `days` rows. -/
def dateRange (now : Clock) (days : Nat) : List ℚ :=
  (((bdaysBetween (now.day - (padFor days : ℤ)) now.day).map
    (fun d => Int.cast d + now.tod)).take days)

/-- Autocorrelated log returns: the raw normal draws after the source's
in-place pass `returns[i] += 0.1 * returns[i-1]` (which reads the
already-updated previous entry). -/
def mockReturns (raw : Nat → ℚ) : Nat → ℚ
  | 0 => raw 0
  | i + 1 => raw (i + 1) + (1/10) * mockReturns raw i

/-- Running sum (numpy `cumsum`). -/
def cumsumAt (f : Nat → ℚ) : Nat → ℚ
  | 0 => f 0
  | i + 1 => cumsumAt f i + f (i + 1)

/-- Integer truncation toward zero, `astype(int)` (explicit T-division,
which truncates toward zero like numpy's cast). -/
def truncInt (q : ℚ) : ℤ :=
  Int.tdiv q.num (q.den : ℤ)

/-- Embedding of `generate_enhanced_mock_data` (data_loader.py). Draw
blocks of the seeded stream: positions `0..n-1` the return draws
(normal(trend, vol)), `n..2n-1` the Open noise (normal(0, dv/2)),
`2n..3n-1` and `3n..4n-1` the High/Low noise (the absolute value is
applied here, as in the source), `4n..5n-1` the log-normal volume draws
(positive by the library contract, which positivity hypotheses encode).
High/Low are then clamped so that High ≥ max(Open, Close) and
Low ≤ min(Open, Close), and all price and volume columns pass through
`DataFrame.round(2)` (which leaves the integer Volume and the datetime
Date column unchanged; dates are stored unrounded here). -/
def generate_enhanced_mock_data (stream : Nat → Nat → ℚ) (expFn : ℚ → ℚ)
    (hashFn : String → Nat) (now : Clock) (ticker period : String) : OHLCV :=
  let dates := dateRange now (daysFor period)
  let n := dates.length
  let p := ticker_params ticker
  let seed := hashFn ticker % 2 ^ 32
  let retAt := mockReturns (fun i => stream seed i)
  let closeAt := fun i => p.basePrice * expFn (cumsumAt retAt i)
  let opnAt := fun i =>
    (if i = 0 then closeAt 0 else closeAt (i - 1)) * (1 + stream seed (n + i))
  let highAt := fun i =>
    max (max (opnAt i) (closeAt i) * (1 + abs (stream seed (2 * n + i))))
      (max (opnAt i) (closeAt i))
  let lowAt := fun i =>
    min (min (opnAt i) (closeAt i) * (1 - abs (stream seed (3 * n + i))))
      (min (opnAt i) (closeAt i))
  { date := dates
    opn := (List.range n).map (fun i => round2 (opnAt i))
    high := (List.range n).map (fun i => round2 (highAt i))
    low := (List.range n).map (fun i => round2 (lowAt i))
    close := (List.range n).map (fun i => round2 (closeAt i))
    vol := (List.range n).map (fun i => round2 ((truncInt (stream seed (4 * n + i)) : ℚ))) }

/-! Orchestrator (app.py). The fetched frame stands in for
`fetch_stock_data` (live retrieval is external; the mock path is
`generate_enhanced_mock_data`), and a flag models an exception raised
anywhere inside the function's try-block. -/

/-- Chart renderer stub (charts.py): a missing or empty frame yields no
chart, anything else yields a handle. -/
def create_advanced_charts (df : Option Enriched) : Option Unit :=
  match df with
  | none => none
  | some e => if e.base.close.length = 0 then none else some ()

/-- The two tuple shapes `process_stock` can return: the match mirrors
the source, which returns the 3-tuple `(None, None, None)` from its two
early exits and a 4-tuple otherwise. -/
inductive ProcResult where
  | tuple3
  | tuple4 (data : Option Enriched) (signals : Option StrategyResult)
      (ml : TrainOutput) (chart : Option Unit)
deriving Repr, DecidableEq

/-- Embedding of `process_stock` (app.py): empty/missing fetch or a
failed indicator stage returns the 3-tuple sentinel; an exception caught
by the handler returns a 4-tuple of Nones; otherwise the full 4-tuple. -/
def process_stock (sq : ℚ → ℚ) (cfg : Config) (dt lr : Option Metrics)
    (fetched : Option OHLCV) (raisesLate : Bool) : ProcResult :=
  if raisesLate then .tuple4 none none .empty none
  else
    match fetched with
    | none => .tuple3
    | some d =>
      if d.close.length = 0 then .tuple3
      else
        match calculate_advanced_indicators sq (some d) with
        | none => .tuple3
        | some e =>
          .tuple4 (some e) (apply_enhanced_trading_strategy cfg (some e))
            (train_ensemble_models dt lr (some e))
            (create_advanced_charts (some e))

/-- Embedding of the per-ticker loop of `run_trading_algorithm`
(app.py): every `process_stock` result is a tuple, hence never `None`,
so the loop always unpacks it into four names; a 3-tuple raises an
uncaught ValueError, which aborts the run before the progress bar
reaches 100%. On normal exit it returns the successful-stocks count. -/
def run_trading_algorithm (sq : ℚ → ℚ) (cfg : Config) (dt lr : Option Metrics)
    (tickers : List (Option OHLCV × Bool)) : Except String Nat :=
  let rec go : List (Option OHLCV × Bool) → Nat → Except String Nat
    | [], successful => .ok successful
    | (fetched, raisesLate) :: rest, successful =>
      match process_stock sq cfg dt lr fetched raisesLate with
      | .tuple4 _ _ _ _ => go rest (successful + 1)
      | .tuple3 => .error "ValueError: not enough values to unpack"
  go tickers 0

/-- The claim of section 7 of the spec: the run always completes
(returns, with the progress bar at 100%) whatever the per-ticker stage
outcomes are. -/
def RunAlwaysCompletes (sq : ℚ → ℚ) (cfg : Config) (dt lr : Option Metrics) : Prop :=
  ∀ tickers, (run_trading_algorithm sq cfg dt lr tickers).isOk = true


/-- Small fully-defined enriched frame (three rows, every cell present):
the shape `train_ensemble_models` receives from the indicator engine,
whose output never contains a NaN. -/
def eC2 : Enriched :=
  { base :=
      { date := [0, 1, 2]
        opn := [1, 2, 3]
        high := [2, 3, 4]
        low := [1, 1, 2]
        close := [1, 2, 3]
        vol := [5, 6, 7] }
    rsi := [some 1, some 1, some 1]
    sma20 := [some 1, some 1, some 1]
    sma50 := [some 1, some 1, some 1]
    ema12 := [some 1, some 1, some 1]
    ema26 := [some 1, some 1, some 1]
    macd := [some 1, some 1, some 1]
    macds := [some 1, some 1, some 1]
    macdh := [some 1, some 1, some 1]
    bbl := [some 1, some 1, some 1]
    bbm := [some 1, some 1, some 1]
    bbu := [some 1, some 1, some 1]
    bbb := [some 1, some 1, some 1]
    bbp := [some 1, some 1, some 1]
    stochk := [some 1, some 1, some 1]
    stochd := [some 1, some 1, some 1]
    willr := [some 1, some 1, some 1]
    atr := [some 1, some 1, some 1]
    ad := [some 1, some 1, some 1]
    obv := [some 1, some 1, some 1]
    priceChange := [some 1, some 1, some 1]
    volumeChange := [some 1, some 1, some 1]
    highLowPct := [some 1, some 1, some 1]
    openClosePct := [some 1, some 1, some 1]
    support := [some 1, some 1, some 1]
    resistance := [some 1, some 1, some 1]
    distSupport := [some 1, some 1, some 1]
    distResistance := [some 1, some 1, some 1] }


/-- Strategy threshold valuation used by concrete instantiations (the
spec fixes only the constant names, not their values). -/
def cfgW : Config :=
  ⟨30, 20, 1/50⟩

/-- Twenty-one-row enriched frame whose last row meets all six buy
conditions under `cfgW` (twenty-one rows are needed because
volume_confirm compares against a 20-row rolling mean). -/
def eC5 : Enriched :=
  { base :=
      { date := [0, 1, 2, 3, 4, 5, 6, 7, 8, 9, 10, 11, 12, 13, 14, 15, 16, 17, 18, 19, 20]
        opn := [1, 1, 1, 1, 1, 1, 1, 1, 1, 1, 1, 1, 1, 1, 1, 1, 1, 1, 1, 1, 1]
        high := [1, 1, 1, 1, 1, 1, 1, 1, 1, 1, 1, 1, 1, 1, 1, 1, 1, 1, 1, 1, 1]
        low := [1, 1, 1, 1, 1, 1, 1, 1, 1, 1, 1, 1, 1, 1, 1, 1, 1, 1, 1, 1, 1]
        close := [1, 1, 1, 1, 1, 1, 1, 1, 1, 1, 1, 1, 1, 1, 1, 1, 1, 1, 1, 1, 1]
        vol := [1, 1, 1, 1, 1, 1, 1, 1, 1, 1, 1, 1, 1, 1, 1, 1, 1, 1, 1, 1, 100] }
    rsi := [some 25, some 25, some 25, some 25, some 25, some 25, some 25, some 25, some 25, some 25, some 25, some 25, some 25, some 25, some 25, some 25, some 25, some 25, some 25, some 25, some 25]
    sma20 := [some 1, some 1, some 1, some 1, some 1, some 1, some 1, some 1, some 1, some 1, some 1, some 1, some 1, some 1, some 1, some 1, some 1, some 1, some 1, some 1, some 5]
    sma50 := [some 3, some 3, some 3, some 3, some 3, some 3, some 3, some 3, some 3, some 3, some 3, some 3, some 3, some 3, some 3, some 3, some 3, some 3, some 3, some 3, some 4]
    ema12 := [some 1, some 1, some 1, some 1, some 1, some 1, some 1, some 1, some 1, some 1, some 1, some 1, some 1, some 1, some 1, some 1, some 1, some 1, some 1, some 1, some 1]
    ema26 := [some 1, some 1, some 1, some 1, some 1, some 1, some 1, some 1, some 1, some 1, some 1, some 1, some 1, some 1, some 1, some 1, some 1, some 1, some 1, some 1, some 1]
    macd := [some 1, some 1, some 1, some 1, some 1, some 1, some 1, some 1, some 1, some 1, some 1, some 1, some 1, some 1, some 1, some 1, some 1, some 1, some 1, some 1, some 1]
    macds := [some 0, some 0, some 0, some 0, some 0, some 0, some 0, some 0, some 0, some 0, some 0, some 0, some 0, some 0, some 0, some 0, some 0, some 0, some 0, some 0, some 0]
    macdh := [some 1, some 1, some 1, some 1, some 1, some 1, some 1, some 1, some 1, some 1, some 1, some 1, some 1, some 1, some 1, some 1, some 1, some 1, some 1, some 1, some 1]
    bbl := [some 1, some 1, some 1, some 1, some 1, some 1, some 1, some 1, some 1, some 1, some 1, some 1, some 1, some 1, some 1, some 1, some 1, some 1, some 1, some 1, some 1]
    bbm := [some 1, some 1, some 1, some 1, some 1, some 1, some 1, some 1, some 1, some 1, some 1, some 1, some 1, some 1, some 1, some 1, some 1, some 1, some 1, some 1, some 1]
    bbu := [some 1, some 1, some 1, some 1, some 1, some 1, some 1, some 1, some 1, some 1, some 1, some 1, some 1, some 1, some 1, some 1, some 1, some 1, some 1, some 1, some 1]
    bbb := [some 1, some 1, some 1, some 1, some 1, some 1, some 1, some 1, some 1, some 1, some 1, some 1, some 1, some 1, some 1, some 1, some 1, some 1, some 1, some 1, some 1]
    bbp := [some 1, some 1, some 1, some 1, some 1, some 1, some 1, some 1, some 1, some 1, some 1, some 1, some 1, some 1, some 1, some 1, some 1, some 1, some 1, some 1, some 1]
    stochk := [some 10, some 10, some 10, some 10, some 10, some 10, some 10, some 10, some 10, some 10, some 10, some 10, some 10, some 10, some 10, some 10, some 10, some 10, some 10, some 10, some 10]
    stochd := [some 1, some 1, some 1, some 1, some 1, some 1, some 1, some 1, some 1, some 1, some 1, some 1, some 1, some 1, some 1, some 1, some 1, some 1, some 1, some 1, some 1]
    willr := [some 1, some 1, some 1, some 1, some 1, some 1, some 1, some 1, some 1, some 1, some 1, some 1, some 1, some 1, some 1, some 1, some 1, some 1, some 1, some 1, some 1]
    atr := [some 1, some 1, some 1, some 1, some 1, some 1, some 1, some 1, some 1, some 1, some 1, some 1, some 1, some 1, some 1, some 1, some 1, some 1, some 1, some 1, some 1]
    ad := [some 1, some 1, some 1, some 1, some 1, some 1, some 1, some 1, some 1, some 1, some 1, some 1, some 1, some 1, some 1, some 1, some 1, some 1, some 1, some 1, some 1]
    obv := [some 1, some 1, some 1, some 1, some 1, some 1, some 1, some 1, some 1, some 1, some 1, some 1, some 1, some 1, some 1, some 1, some 1, some 1, some 1, some 1, some 1]
    priceChange := [some 1, some 1, some 1, some 1, some 1, some 1, some 1, some 1, some 1, some 1, some 1, some 1, some 1, some 1, some 1, some 1, some 1, some 1, some 1, some 1, some 1]
    volumeChange := [some 1, some 1, some 1, some 1, some 1, some 1, some 1, some 1, some 1, some 1, some 1, some 1, some 1, some 1, some 1, some 1, some 1, some 1, some 1, some 1, some 1]
    highLowPct := [some 1, some 1, some 1, some 1, some 1, some 1, some 1, some 1, some 1, some 1, some 1, some 1, some 1, some 1, some 1, some 1, some 1, some 1, some 1, some 1, some 1]
    openClosePct := [some 1, some 1, some 1, some 1, some 1, some 1, some 1, some 1, some 1, some 1, some 1, some 1, some 1, some 1, some 1, some 1, some 1, some 1, some 1, some 1, some 1]
    support := [some 1, some 1, some 1, some 1, some 1, some 1, some 1, some 1, some 1, some 1, some 1, some 1, some 1, some 1, some 1, some 1, some 1, some 1, some 1, some 1, some 1]
    resistance := [some 1, some 1, some 1, some 1, some 1, some 1, some 1, some 1, some 1, some 1, some 1, some 1, some 1, some 1, some 1, some 1, some 1, some 1, some 1, some 1, some 1]
    distSupport := [some 1, some 1, some 1, some 1, some 1, some 1, some 1, some 1, some 1, some 1, some 1, some 1, some 1, some 1, some 1, some 1, some 1, some 1, some 1, some 1, some 1]
    distResistance := [some 1, some 1, some 1, some 1, some 1, some 1, some 1, some 1, some 1, some 1, some 1, some 1, some 1, some 1, some 1, some 1, some 1, some 1, some 1, some 1, some 1] }

/-- The strategy output on `eC5` under `cfgW`, as the source constructs
it. -/
def rC5 : StrategyResult :=
  { frame := eC5
    signal := signalCol cfgW eC5
    buyRows := (List.range eC5.base.close.length).filter
      (fun i => 0 < (signalCol cfgW eC5).getD i 0)
    buyTypes := ((List.range eC5.base.close.length).filter
      (fun i => 0 < (signalCol cfgW eC5).getD i 0)).map
      (fun i => if (signalCol cfgW eC5).getD i 0 = 1 then some "BUY"
        else if (signalCol cfgW eC5).getD i 0 = 2 then some "STRONG_BUY"
        else none) }


/-- Concrete decision-tree metrics for witnesses. -/
def mDTw : Metrics :=
  ⟨3/5, 1/2, 2/5, 9/20⟩

/-- Concrete logistic-regression metrics for witnesses. -/
def mLRw : Metrics :=
  ⟨7/10, 3/5, 1/2, 11/20⟩


/-- Formalization of the mock-determinism claim: two same-process calls
of the synthetic generator for the same ticker and period return
identical Series, all columns equal row for row including Date. Within
one process the RNG stream model, the exp model and the string hash are
fixed; what distinguishes the two calls is their `datetime.now()`
reading, over which the claim therefore quantifies. -/
def MockDeterministic (stream : Nat → Nat → ℚ) (expFn : ℚ → ℚ)
    (hashFn : String → Nat) (ticker period : String) : Prop :=
  ∀ t1 t2 : Clock,
    generate_enhanced_mock_data stream expFn hashFn t1 ticker period =
      generate_enhanced_mock_data stream expFn hashFn t2 ticker period

/-! Theorems. -/
/-! Evaluation facts for the idempotence counterexample; each one is a
single sequential evaluation of the pipeline on `c3Input` or `c3Base`. -/

set_option maxRecDepth 8000 in
set_option maxHeartbeats 2000000 in
theorem c3_kept1 : keptRows mockSqrt c3Input = List.range' 49 50 := by
  with_unfolding_all decide

set_option maxRecDepth 8000 in
set_option maxHeartbeats 2000000 in
theorem c3_kept2 : keptRows mockSqrt c3Base = List.range' 49 1 := by
  with_unfolding_all decide

theorem c3_calc1 :
    calculate_advanced_indicators mockSqrt (some c3Input) = some c3Run1 := by
  simp only [calculate_advanced_indicators]
  rw [if_neg (by decide : ¬ (c3Input.close.length = 0)), c3_kept1]
  rfl

theorem c3_calc2 :
    calculate_advanced_indicators mockSqrt (some c3Base) = some c3Run2 := by
  simp only [calculate_advanced_indicators]
  rw [if_neg (by decide : ¬ (c3Base.close.length = 0)), c3_kept2]
  rfl

set_option maxRecDepth 8000 in
set_option maxHeartbeats 1000000 in
theorem c3_base_eq : c3Run1.base = c3Base := by
  with_unfolding_all decide

theorem obvAcc_chunk (c v : List ℚ) (k j : Nat) :
    obvAcc c v (k + j) = obvAcc c v k + obvStretch c v k j := by
  induction j with
  | zero => simp [obvStretch]
  | succ n ih =>
    show obvAcc c v ((k + n) + 1) = _
    rw [obvAcc, ih, obvStretch]
    ring

set_option maxRecDepth 8000 in
set_option maxHeartbeats 1000000 in
theorem c3_obvAcc1 : obvAcc c3Input.close c3Input.vol 98 = 5841 := by
  have h0 : obvAcc c3Input.close c3Input.vol 2 = 33 := by
    with_unfolding_all decide
  have s1 : obvStretch c3Input.close c3Input.vol 2 16 = 328 := by
    with_unfolding_all decide
  have s2 : obvStretch c3Input.close c3Input.vol 18 16 = 584 := by
    with_unfolding_all decide
  have s3 : obvStretch c3Input.close c3Input.vol 34 16 = 840 := by
    with_unfolding_all decide
  have s4 : obvStretch c3Input.close c3Input.vol 50 16 = 1096 := by
    with_unfolding_all decide
  have s5 : obvStretch c3Input.close c3Input.vol 66 16 = 1352 := by
    with_unfolding_all decide
  have s6 : obvStretch c3Input.close c3Input.vol 82 16 = 1608 := by
    with_unfolding_all decide
  have e1 := obvAcc_chunk c3Input.close c3Input.vol 2 16
  have e2 := obvAcc_chunk c3Input.close c3Input.vol 18 16
  have e3 := obvAcc_chunk c3Input.close c3Input.vol 34 16
  have e4 := obvAcc_chunk c3Input.close c3Input.vol 50 16
  have e5 := obvAcc_chunk c3Input.close c3Input.vol 66 16
  have e6 := obvAcc_chunk c3Input.close c3Input.vol 82 16
  norm_num at e1 e2 e3 e4 e5 e6
  rw [e6, e5, e4, e3, e2, e1, h0, s1, s2, s3, s4, s5, s6]
  norm_num

set_option maxRecDepth 8000 in
set_option maxHeartbeats 1000000 in
theorem c3_obvAcc2 : obvAcc c3Base.close c3Base.vol 49 = 4175 := by
  have h0 : obvAcc c3Base.close c3Base.vol 1 = 119 := by
    with_unfolding_all decide
  have s1 : obvStretch c3Base.close c3Base.vol 1 16 = 1096 := by
    with_unfolding_all decide
  have s2 : obvStretch c3Base.close c3Base.vol 17 16 = 1352 := by
    with_unfolding_all decide
  have s3 : obvStretch c3Base.close c3Base.vol 33 16 = 1608 := by
    with_unfolding_all decide
  have e1 := obvAcc_chunk c3Base.close c3Base.vol 1 16
  have e2 := obvAcc_chunk c3Base.close c3Base.vol 17 16
  have e3 := obvAcc_chunk c3Base.close c3Base.vol 33 16
  norm_num at e1 e2 e3
  rw [e3, e2, e1, h0, s1, s2, s3]
  norm_num

set_option maxRecDepth 8000 in
theorem c3_obv1 : c3Run1.obv.getD 49 none = some 5841 := by
  have hr : c3Run1.obv.getD 49 none
      = some (obvAcc c3Input.close c3Input.vol 98) := rfl
  rw [hr, c3_obvAcc1]

set_option maxRecDepth 8000 in
theorem c3_obv2 : c3Run2.obv.getD 0 none = some 4175 := by
  have hr : c3Run2.obv.getD 0 none
      = some (obvAcc c3Base.close c3Base.vol 49) := rfl
  rw [hr, c3_obvAcc2]

set_option maxRecDepth 8000 in
theorem c3_date2 : c3Run2.base.date.getD 0 0 = 98 := by
  with_unfolding_all decide

set_option maxRecDepth 8000 in
theorem c3_dlen2 : c3Run2.base.date.length = 1 := by
  with_unfolding_all decide


theorem roundHalfEven_intCast (n : ℤ) : roundHalfEven (n : ℚ) = n := by
  unfold roundHalfEven
  rw [Int.floor_intCast]
  norm_num

theorem roundHalfEven_cases (q : ℚ) :
    roundHalfEven q = ⌊q⌋ ∨ roundHalfEven q = ⌊q⌋ + 1 := by
  unfold roundHalfEven
  split
  · exact Or.inl rfl
  · split
    · exact Or.inr rfl
    · split
      · exact Or.inl rfl
      · exact Or.inr rfl

theorem roundHalfEven_mono {a b : ℚ} (h : a ≤ b) :
    roundHalfEven a ≤ roundHalfEven b := by
  have hf : ⌊a⌋ ≤ ⌊b⌋ := Int.floor_le_floor h
  rcases lt_or_eq_of_le hf with hlt | heq
  · rcases roundHalfEven_cases a with ha | ha <;>
      rcases roundHalfEven_cases b with hb | hb <;> omega
  · by_cases h1 : a - (⌊a⌋ : ℚ) < 1/2
    · have ha : roundHalfEven a = ⌊a⌋ := by
        unfold roundHalfEven
        rw [if_pos h1]
      rcases roundHalfEven_cases b with hb | hb <;> omega
    · by_cases h2 : 1/2 < b - (⌊b⌋ : ℚ)
      · have hb : roundHalfEven b = ⌊b⌋ + 1 := by
          unfold roundHalfEven
          rw [if_neg (by linarith), if_pos h2]
        rcases roundHalfEven_cases a with ha | ha <;> omega
      · have hcast : ((⌊a⌋ : ℚ)) = ((⌊b⌋ : ℚ)) := by exact_mod_cast heq
        have hab : a = b := by
          have h3 : a - (⌊a⌋ : ℚ) ≤ b - (⌊b⌋ : ℚ) := by
            rw [hcast]
            linarith
          have h4 : a - (⌊a⌋ : ℚ) = b - (⌊b⌋ : ℚ) :=
            le_antisymm h3 (by linarith [le_of_not_lt h1, le_of_not_lt h2])
          have := hcast
          linarith [h4]
        rw [hab]

theorem round2_mono {a b : ℚ} (h : a ≤ b) : round2 a ≤ round2 b := by
  unfold round2
  have hm := roundHalfEven_mono (mul_le_mul_of_nonneg_right h (by norm_num : (0:ℚ) ≤ 100))
  have hcast : ((roundHalfEven (a * 100) : ℚ)) ≤ ((roundHalfEven (b * 100) : ℚ)) := by
    exact_mod_cast hm
  linarith

theorem round2_max (a b : ℚ) : round2 (max a b) = max (round2 a) (round2 b) := by
  rcases le_total a b with hab | hab
  · rw [max_eq_right hab, max_eq_right (round2_mono hab)]
  · rw [max_eq_left hab, max_eq_left (round2_mono hab)]

theorem round2_intCast (n : ℤ) : round2 (n : ℚ) = n := by
  unfold round2
  have : ((n : ℚ)) * 100 = ((n * 100 : ℤ) : ℚ) := by push_cast; ring
  rw [this, roundHalfEven_intCast]
  push_cast
  ring

/-- C3: the idempotence claim is false at `c3Input`: the first enrichment
keeps rows 49..98, the second keeps only the date-98 row, and the OBV
column is recomputed there as the cumulative signed volume of the
trimmed history (4175) where the first enrichment had the full-history
value (5841). -/
theorem C3_counterexample : ¬ EnrichTwiceUnchanged mockSqrt c3Input := by
  intro h
  have hagain : enrichAgain mockSqrt c3Run1 = some c3Run2 := by
    unfold enrichAgain
    rw [c3_base_eq]
    exact c3_calc2
  have hb1 : (49 : Nat) < c3Run1.base.date.length := by
    rw [c3_base_eq]
    decide
  have hb2 : (0 : Nat) < c3Run2.base.date.length := by
    rw [c3_dlen2]
    decide
  have hdate : c3Run1.base.date.getD 49 0 = c3Run2.base.date.getD 0 0 := by
    rw [c3_base_eq, c3_date2]
    with_unfolding_all decide
  have hmem : (c3Run1.obv, c3Run2.obv) ∈
      List.zip (indicatorCols c3Run1) (indicatorCols c3Run2) := by
    simp [indicatorCols, List.zip]
  have hcell := h c3Run1 c3_calc1 c3Run2 hagain 49 0 hb1 hb2 hdate
    (c3Run1.obv, c3Run2.obv) hmem
  have hcell2 : c3Run1.obv.getD 49 none = c3Run2.obv.getD 0 none := hcell
  rw [c3_obv1, c3_obv2] at hcell2
  have : (5841 : ℚ) = 4175 := Option.some.inj hcell2
  norm_num at this

/-- C3 (amended): a second run of the indicator engine on an output of
the engine never crashes; it returns an enriched Series exactly when
that output is non-empty, and the empty-input sentinel (`None`) when the
first trim dropped every row. -/
theorem C3_reenrich_no_crash (sq : ℚ → ℚ) (d : OHLCV) (e1 : Enriched)
    (h : calculate_advanced_indicators sq (some d) = some e1) :
    ((enrichAgain sq e1).isSome ↔ e1.base.close.length ≠ 0) := by
  unfold enrichAgain calculate_advanced_indicators
  by_cases hl : e1.base.close.length = 0
  · simp [hl]
  · simp [hl]

/-- Witness for C3: the no-crash theorem applied to the concrete 99-bar
series and its concrete first-enrichment output. -/
theorem C3_witness :
    calculate_advanced_indicators mockSqrt (some c3Input) = some c3Run1 ∧
    ((enrichAgain mockSqrt c3Run1).isSome ↔ c3Run1.base.close.length ≠ 0) :=
  ⟨c3_calc1, C3_reenrich_no_crash mockSqrt c3Input c3Run1 c3_calc1⟩

/-- C1: the orchestrator does not survive a per-ticker stage failure: at
the failing input - one ticker whose fetch yields no data - the loop
unpacks the 3-tuple `(None, None, None)` into four names and the run
aborts with an uncaught ValueError, refuting the always-completes
claim. -/
theorem C1_run_aborts :
    run_trading_algorithm mockSqrt ⟨30, 20, 1/50⟩ none none [(none, false)]
        = .error "ValueError: not enough values to unpack" ∧
      ¬ RunAlwaysCompletes mockSqrt ⟨30, 20, 1/50⟩ none none := by
  constructor
  · rfl
  · intro h
    have h2 := h [(none, false)]
    have h3 : run_trading_algorithm mockSqrt ⟨30, 20, 1/50⟩ none none
        [(none, false)] = .error "ValueError: not enough values to unpack" := rfl
    rw [h3] at h2
    simp [Except.isOk, Except.toBool] at h2

/-- C2: the Model Trainer keeps the final bar in the fitted rows: the
label column is `(Close.shift(-1) > Close).astype(int)`, whose final
entry compares NaN and therefore becomes the integer 0 instead of NaN,
so `dropna` does not remove the final row - exhibited on a concrete
fully-defined three-row frame, where row 2 (the last bar) is in the
fitted row set with label 0. -/
theorem C2_last_bar_trained :
    (targetCol eC2.base.close).getD 2 0 = 0 ∧ 2 ∈ mlRows eC2 ∧
      eC2.base.close.length = 3 := by
  refine ⟨rfl, ?_, rfl⟩
  decide

theorem getD_map_range {α : Type} (f : Nat → α) (dflt : α) (n i : Nat) :
    ((List.range n).map f).getD i dflt = if i < n then f i else dflt := by
  by_cases h : i < n
  · rw [if_pos h]
    rw [List.getD_eq_getElem?_getD, List.getElem?_map, List.getElem?_range h]
    rfl
  · rw [if_neg h]
    rw [List.getD_eq_getElem?_getD]
    have : ((List.range n).map f)[i]? = none := by
      rw [List.getElem?_eq_none]
      simp only [List.length_map, List.length_range]
      omega
    rw [this]
    rfl

theorem signalAt_mem (cfg : Config) (e : Enriched) (i : Nat) :
    signalAt cfg e i = 0 ∨ signalAt cfg e i = 1 ∨ signalAt cfg e i = 2 := by
  unfold signalAt
  by_cases hc : confirmed_buy cfg e i = true
  · simp [hc]
  · by_cases hs : strong_buy cfg e i = true
    · simp [hc, hs]
    · simp [hc, hs]

theorem strategy_some_inv (cfg : Config) (e : Enriched) (r : StrategyResult)
    (h1 : apply_enhanced_trading_strategy cfg (some e) = some r) :
    r = { frame := e
          signal := signalCol cfg e
          buyRows := (List.range e.base.close.length).filter
            (fun i => 0 < (signalCol cfg e).getD i 0)
          buyTypes := ((List.range e.base.close.length).filter
            (fun i => 0 < (signalCol cfg e).getD i 0)).map
            (fun i => if (signalCol cfg e).getD i 0 = 1 then some "BUY"
              else if (signalCol cfg e).getD i 0 = 2 then some "STRONG_BUY"
              else none) } := by
  by_cases hl : e.base.close.length = 0
  · simp [apply_enhanced_trading_strategy, hl] at h1
  · simp only [apply_enhanced_trading_strategy, if_neg hl] at h1
    exact (Option.some.inj h1).symm

/-- C5: every row the Strategy Evaluator assigns signal 2 satisfies all
four standard-buy conditions on that same row (the signal-2 set is the
confirmed subset of the four-way conjunction). -/
theorem C5_strong_buy_implies_standard (cfg : Config) (e : Enriched)
    (r : StrategyResult) (i : Nat)
    (h1 : apply_enhanced_trading_strategy cfg (some e) = some r)
    (h2 : r.signal.getD i 0 = 2) :
    rsi_oversold cfg e i = true ∧ sma_crossover e i = true ∧
      volume_confirm e i = true ∧ macd_bullish e i = true := by
  have hr := strategy_some_inv cfg e r h1
  rw [hr] at h2
  simp only at h2
  unfold signalCol at h2
  rw [getD_map_range] at h2
  by_cases hin : i < e.base.close.length
  · rw [if_pos hin] at h2
    unfold signalAt at h2
    by_cases hc : confirmed_buy cfg e i = true
    · have hs : strong_buy cfg e i = true := by
        unfold confirmed_buy at hc
        simp only [Bool.and_eq_true] at hc
        exact hc.1.1
      unfold strong_buy at hs
      simp only [Bool.and_eq_true] at hs
      exact ⟨hs.1.1.1, hs.1.1.2, hs.1.2, hs.2⟩
    · rw [if_neg hc] at h2
      split at h2 <;> omega
  · rw [if_neg hin] at h2
    omega

/-- Witness for C5: on the concrete frame `eC5` with thresholds `cfgW`,
row 20 is assigned signal 2 and the theorem yields its four standard-buy
conditions. -/
theorem C5_witness :
    apply_enhanced_trading_strategy cfgW (some eC5) = some rC5 ∧
    rC5.signal.getD 20 0 = 2 ∧
    (rsi_oversold cfgW eC5 20 = true ∧ sma_crossover eC5 20 = true ∧
      volume_confirm eC5 20 = true ∧ macd_bullish eC5 20 = true) :=
  ⟨rfl, by with_unfolding_all decide,
    C5_strong_buy_implies_standard cfgW eC5 rC5 20 rfl
      (by with_unfolding_all decide)⟩

/-- C10: on a non-empty frame the evaluator's only frame effect is the
added integer Signal column with per-row values in {0, 1, 2}: the
caller's columns and rows are returned unchanged, the Signal column is
row-aligned, and the Signal_Type labels exist only on the returned
buy-signal subset (BUY for 1, STRONG_BUY for 2). -/
theorem C10_frame_effects (cfg : Config) (e : Enriched) (r : StrategyResult)
    (h1 : apply_enhanced_trading_strategy cfg (some e) = some r) :
    r.frame = e ∧
    r.signal.length = e.base.close.length ∧
    (∀ s ∈ r.signal, s = 0 ∨ s = 1 ∨ s = 2) ∧
    r.buyRows = (List.range e.base.close.length).filter
      (fun i => 0 < r.signal.getD i 0) ∧
    r.buyTypes = r.buyRows.map
      (fun i => if r.signal.getD i 0 = 1 then some "BUY"
        else if r.signal.getD i 0 = 2 then some "STRONG_BUY" else none) := by
  have hr := strategy_some_inv cfg e r h1
  subst hr
  refine ⟨rfl, ?_, ?_, rfl, rfl⟩
  · simp [signalCol]
  · intro s hs
    simp only [signalCol, List.mem_map] at hs
    obtain ⟨i, _, hi⟩ := hs
    rw [← hi]
    exact signalAt_mem cfg e i

/-- Witness for C10: the frame-effect theorem applied to the concrete
strategy run on `eC5`. -/
theorem C10_witness :
    apply_enhanced_trading_strategy cfgW (some eC5) = some rC5 ∧
    (rC5.frame = eC5 ∧
      rC5.signal.length = eC5.base.close.length ∧
      (∀ s ∈ rC5.signal, s = 0 ∨ s = 1 ∨ s = 2) ∧
      rC5.buyRows = (List.range eC5.base.close.length).filter
        (fun i => 0 < rC5.signal.getD i 0) ∧
      rC5.buyTypes = rC5.buyRows.map
        (fun i => if rC5.signal.getD i 0 = 1 then some "BUY"
          else if rC5.signal.getD i 0 = 2 then some "STRONG_BUY" else none)) :=
  ⟨rfl, C10_frame_effects cfgW eC5 rC5 rfl⟩


theorem selStep_skip (best : Option String × ℚ) (name : String) :
    selStep best (name, none) = best := rfl

theorem selStep_higher (best : Option String × ℚ) (name : String) (m : Metrics)
    (h : best.2 < m.accuracy) :
    selStep best (name, some m) = (some name, m.accuracy) := by
  unfold selStep
  exact if_pos h

theorem selStep_le (best : Option String × ℚ) (name : String) (m : Metrics)
    (h : m.accuracy ≤ best.2) :
    selStep best (name, some m) = best := by
  unfold selStep
  exact if_neg (not_lt.mpr h)

theorem mlFeatureCols_length (e : Enriched) : (mlFeatureCols e).length = 21 := rfl

/-- C7: model selection of the Trainer: strictly higher test accuracy
wins; an exact tie keeps Decision Tree, the first model in the fixed
iteration order; and if both fits raised, or no model has accuracy
strictly above zero, the empty result is returned. -/
theorem C7_selection (dt lr : Option Metrics) (e : Enriched)
    (h : e.base.close.length ≠ 0) :
    (∀ m1 m2, dt = some m1 → lr = some m2 → 0 < m1.accuracy →
      m2.accuracy ≤ m1.accuracy →
      train_ensemble_models dt lr (some e)
        = .success "Decision Tree" (round2 (m1.accuracy * 100))
            [("Decision Tree", m1), ("Logistic Regression", m2)]) ∧
    (∀ m1 m2, dt = some m1 → lr = some m2 → 0 < m2.accuracy →
      m1.accuracy < m2.accuracy →
      train_ensemble_models dt lr (some e)
        = .success "Logistic Regression" (round2 (m2.accuracy * 100))
            [("Decision Tree", m1), ("Logistic Regression", m2)]) ∧
    (dt = none → lr = none → train_ensemble_models dt lr (some e) = .empty) ∧
    (∀ m1 m2, dt = some m1 → lr = some m2 → m1.accuracy ≤ 0 →
      m2.accuracy ≤ 0 → train_ensemble_models dt lr (some e) = .empty) := by
  have h21 : ¬ ((mlFeatureCols e).length < 5) := by
    rw [mlFeatureCols_length]
    omega
  refine ⟨?_, ?_, ?_, ?_⟩
  · intro m1 m2 e1 e2 hpos hle
    subst e1; subst e2
    have s1 : selStep (none, 0) ("Decision Tree", some m1)
        = (some "Decision Tree", m1.accuracy) :=
      selStep_higher _ _ _ (by simpa using hpos)
    have s2 : selStep (some "Decision Tree", m1.accuracy)
        ("Logistic Regression", some m2) = (some "Decision Tree", m1.accuracy) :=
      selStep_le _ _ _ (by simpa using hle)
    have hfold : ((modelEntries (some m1) (some m2)).foldl selStep (none, 0))
        = (some "Decision Tree", m1.accuracy) := by
      simp only [modelEntries, List.foldl, s1, s2]
    simp only [train_ensemble_models, if_neg h, if_neg h21, hfold]
    rfl
  · intro m1 m2 e1 e2 hpos hlt
    subst e1; subst e2
    have hfold : ((modelEntries (some m1) (some m2)).foldl selStep (none, 0))
        = (some "Logistic Regression", m2.accuracy) := by
      by_cases hA : (0 : ℚ) < m1.accuracy
      · have s1 : selStep (none, 0) ("Decision Tree", some m1)
            = (some "Decision Tree", m1.accuracy) :=
          selStep_higher _ _ _ (by simpa using hA)
        have s2 : selStep (some "Decision Tree", m1.accuracy)
            ("Logistic Regression", some m2)
            = (some "Logistic Regression", m2.accuracy) :=
          selStep_higher _ _ _ (by simpa using hlt)
        simp only [modelEntries, List.foldl, s1, s2]
      · have s1 : selStep (none, 0) ("Decision Tree", some m1) = (none, 0) :=
          selStep_le _ _ _ (by simpa using not_lt.mp hA)
        have s2 : selStep ((none : Option String), (0 : ℚ))
            ("Logistic Regression", some m2)
            = (some "Logistic Regression", m2.accuracy) :=
          selStep_higher _ _ _ (by simpa using hpos)
        simp only [modelEntries, List.foldl, s1, s2]
    simp only [train_ensemble_models, if_neg h, if_neg h21, hfold]
    rfl
  · intro e1 e2
    subst e1; subst e2
    simp only [train_ensemble_models, if_neg h, if_neg h21]
    rfl
  · intro m1 m2 e1 e2 h1 h2
    subst e1; subst e2
    have s1 : selStep (none, 0) ("Decision Tree", some m1) = (none, 0) :=
      selStep_le _ _ _ (by simpa using h1)
    have s2 : selStep ((none : Option String), (0 : ℚ))
        ("Logistic Regression", some m2) = (none, 0) :=
      selStep_le _ _ _ (by simpa using h2)
    have hfold : ((modelEntries (some m1) (some m2)).foldl selStep (none, 0))
        = (none, 0) := by
      simp only [modelEntries, List.foldl, s1, s2]
    simp only [train_ensemble_models, if_neg h, if_neg h21, hfold]

/-- Witness for C7: the selection theorem at concrete metrics where the
logistic model's 0.7 accuracy beats the tree's 0.6. -/
theorem C7_witness :
    train_ensemble_models (some mDTw) (some mLRw) (some eC2)
      = .success "Logistic Regression" (round2 (mLRw.accuracy * 100))
          [("Decision Tree", mDTw), ("Logistic Regression", mLRw)] :=
  (C7_selection (some mDTw) (some mLRw) eC2 (by decide)).2.1 mDTw mLRw rfl rfl
    (by norm_num [mLRw]) (by norm_num [mDTw, mLRw])

theorem round2_zero : round2 0 = 0 := by
  have h := round2_intCast 0
  simpa using h

theorem round2_hundred : round2 100 = 100 := by
  have h := round2_intCast 100
  simpa using h

theorem round2_pct_bounds {a : ℚ} (h0 : 0 ≤ a) (h1 : a ≤ 1) :
    0 ≤ round2 (a * 100) ∧ round2 (a * 100) ≤ 100 := by
  constructor
  · have h := round2_mono (by linarith : (0 : ℚ) ≤ a * 100)
    rw [round2_zero] at h
    exact h
  · have h := round2_mono (by linarith : a * 100 ≤ 100)
    rw [round2_hundred] at h
    exact h

/-- C9: on every successful run the returned accuracy is the selected
model's test accuracy times 100, rounded to two decimals - a percentage
in [0, 100] - while the precision/recall/F1 entries of the returned
per-model details stay unscaled fractions in [0, 1] (under sklearn's
contract that every metric is a fraction in [0, 1]). -/
theorem C9_accuracy_scaling (dt lr : Option Metrics) (e : Enriched)
    (hb : ∀ m, dt = some m ∨ lr = some m →
      0 ≤ m.accuracy ∧ m.accuracy ≤ 1 ∧
        0 ≤ m.precisionVal ∧ m.precisionVal ≤ 1 ∧
        0 ≤ m.recallVal ∧ m.recallVal ≤ 1 ∧ 0 ≤ m.f1 ∧ m.f1 ≤ 1) :
    ∀ name pct det,
      train_ensemble_models dt lr (some e) = .success name pct det →
      (∃ m, ((name = "Decision Tree" ∧ dt = some m) ∨
          (name = "Logistic Regression" ∧ lr = some m)) ∧
        pct = round2 (m.accuracy * 100)) ∧
      0 ≤ pct ∧ pct ≤ 100 ∧
      ∀ p ∈ det, (dt = some p.2 ∨ lr = some p.2) ∧
        0 ≤ p.2.precisionVal ∧ p.2.precisionVal ≤ 1 ∧
        0 ≤ p.2.recallVal ∧ p.2.recallVal ≤ 1 ∧ 0 ≤ p.2.f1 ∧ p.2.f1 ≤ 1 := by
  intro name pct det hsucc
  by_cases hl : e.base.close.length = 0
  · simp [train_ensemble_models, hl] at hsucc
  · have h21 : ¬ ((mlFeatureCols e).length < 5) := by
      rw [mlFeatureCols_length]
      omega
    cases dt with
    | none =>
      cases lr with
      | none =>
        simp [train_ensemble_models, if_neg hl, if_neg h21, modelEntries,
          List.foldl, selStep] at hsucc
      | some m2 =>
        by_cases hA : (0 : ℚ) < m2.accuracy
        · have s2 : selStep ((none : Option String), (0 : ℚ))
              ("Logistic Regression", some m2)
              = (some "Logistic Regression", m2.accuracy) :=
            selStep_higher _ _ _ (by simpa using hA)
          have hfold : ((modelEntries none (some m2)).foldl selStep (none, 0))
              = (some "Logistic Regression", m2.accuracy) := by
            simp only [modelEntries, List.foldl, selStep_skip, s2]
          have hdet : ((modelEntries none (some m2)).filterMap
              (fun ent => ent.2.map (fun m => (ent.1, m))))
              = [("Logistic Regression", m2)] := by
            simp [modelEntries]
          simp only [train_ensemble_models, if_neg hl, if_neg h21, hfold, hdet,
            TrainOutput.success.injEq] at hsucc
          obtain ⟨hn, hp, hd⟩ := hsucc
          obtain ⟨b0, b1, bounds⟩ := hb m2 (Or.inr rfl)
          refine ⟨⟨m2, Or.inr ⟨hn.symm, rfl⟩, hp.symm⟩, ?_, ?_, ?_⟩
          · rw [← hp]
            exact (round2_pct_bounds b0 b1).1
          · rw [← hp]
            exact (round2_pct_bounds b0 b1).2
          · intro p hp2
            rw [← hd] at hp2
            simp only [List.mem_cons, List.not_mem_nil, or_false] at hp2
            subst hp2
            exact ⟨Or.inr rfl, bounds⟩
        · have s2 : selStep ((none : Option String), (0 : ℚ))
              ("Logistic Regression", some m2) = (none, 0) :=
            selStep_le _ _ _ (by simpa using not_lt.mp hA)
          have hfold : ((modelEntries none (some m2)).foldl selStep (none, 0))
              = ((none : Option String), (0 : ℚ)) := by
            simp only [modelEntries, List.foldl, selStep_skip, s2]
          simp only [train_ensemble_models, if_neg hl, if_neg h21, hfold] at hsucc
          exact TrainOutput.noConfusion hsucc
    | some m1 =>
      cases lr with
      | none =>
        by_cases hA : (0 : ℚ) < m1.accuracy
        · have s1 : selStep (none, 0) ("Decision Tree", some m1)
              = (some "Decision Tree", m1.accuracy) :=
            selStep_higher _ _ _ (by simpa using hA)
          have hfold : ((modelEntries (some m1) none).foldl selStep (none, 0))
              = (some "Decision Tree", m1.accuracy) := by
            simp only [modelEntries, List.foldl, s1, selStep_skip]
          have hdet : ((modelEntries (some m1) none).filterMap
              (fun ent => ent.2.map (fun m => (ent.1, m))))
              = [("Decision Tree", m1)] := by
            simp [modelEntries]
          simp only [train_ensemble_models, if_neg hl, if_neg h21, hfold, hdet,
            TrainOutput.success.injEq] at hsucc
          obtain ⟨hn, hp, hd⟩ := hsucc
          obtain ⟨b0, b1, bounds⟩ := hb m1 (Or.inl rfl)
          refine ⟨⟨m1, Or.inl ⟨hn.symm, rfl⟩, hp.symm⟩, ?_, ?_, ?_⟩
          · rw [← hp]
            exact (round2_pct_bounds b0 b1).1
          · rw [← hp]
            exact (round2_pct_bounds b0 b1).2
          · intro p hp2
            rw [← hd] at hp2
            simp only [List.mem_cons, List.not_mem_nil, or_false] at hp2
            subst hp2
            exact ⟨Or.inl rfl, bounds⟩
        · have s1 : selStep (none, 0) ("Decision Tree", some m1) = (none, 0) :=
            selStep_le _ _ _ (by simpa using not_lt.mp hA)
          have hfold : ((modelEntries (some m1) none).foldl selStep (none, 0))
              = ((none : Option String), (0 : ℚ)) := by
            simp only [modelEntries, List.foldl, s1, selStep_skip]
          simp only [train_ensemble_models, if_neg hl, if_neg h21, hfold] at hsucc
          exact TrainOutput.noConfusion hsucc
      | some m2 =>
        have hdet : ((modelEntries (some m1) (some m2)).filterMap
            (fun ent => ent.2.map (fun m => (ent.1, m))))
            = [("Decision Tree", m1), ("Logistic Regression", m2)] := by
          simp [modelEntries]
        by_cases hA : (0 : ℚ) < m1.accuracy
        · by_cases hB : m1.accuracy < m2.accuracy
          · have s1 : selStep (none, 0) ("Decision Tree", some m1)
                = (some "Decision Tree", m1.accuracy) :=
              selStep_higher _ _ _ (by simpa using hA)
            have s2 : selStep (some "Decision Tree", m1.accuracy)
                ("Logistic Regression", some m2)
                = (some "Logistic Regression", m2.accuracy) :=
              selStep_higher _ _ _ (by simpa using hB)
            have hfold : ((modelEntries (some m1) (some m2)).foldl selStep (none, 0))
                = (some "Logistic Regression", m2.accuracy) := by
              simp only [modelEntries, List.foldl, s1, s2]
            simp only [train_ensemble_models, if_neg hl, if_neg h21, hfold, hdet,
              TrainOutput.success.injEq] at hsucc
            obtain ⟨hn, hp, hd⟩ := hsucc
            obtain ⟨b0, b1, bounds⟩ := hb m2 (Or.inr rfl)
            refine ⟨⟨m2, Or.inr ⟨hn.symm, rfl⟩, hp.symm⟩, ?_, ?_, ?_⟩
            · rw [← hp]
              exact (round2_pct_bounds b0 b1).1
            · rw [← hp]
              exact (round2_pct_bounds b0 b1).2
            · intro p hp2
              rw [← hd] at hp2
              simp only [List.mem_cons, List.not_mem_nil, or_false] at hp2
              rcases hp2 with rfl | rfl
              · exact ⟨Or.inl rfl, (hb m1 (Or.inl rfl)).2.2⟩
              · exact ⟨Or.inr rfl, bounds⟩
          · have s1 : selStep (none, 0) ("Decision Tree", some m1)
                = (some "Decision Tree", m1.accuracy) :=
              selStep_higher _ _ _ (by simpa using hA)
            have s2 : selStep (some "Decision Tree", m1.accuracy)
                ("Logistic Regression", some m2)
                = (some "Decision Tree", m1.accuracy) :=
              selStep_le _ _ _ (by simpa using not_lt.mp hB)
            have hfold : ((modelEntries (some m1) (some m2)).foldl selStep (none, 0))
                = (some "Decision Tree", m1.accuracy) := by
              simp only [modelEntries, List.foldl, s1, s2]
            simp only [train_ensemble_models, if_neg hl, if_neg h21, hfold, hdet,
              TrainOutput.success.injEq] at hsucc
            obtain ⟨hn, hp, hd⟩ := hsucc
            obtain ⟨b0, b1, bounds⟩ := hb m1 (Or.inl rfl)
            refine ⟨⟨m1, Or.inl ⟨hn.symm, rfl⟩, hp.symm⟩, ?_, ?_, ?_⟩
            · rw [← hp]
              exact (round2_pct_bounds b0 b1).1
            · rw [← hp]
              exact (round2_pct_bounds b0 b1).2
            · intro p hp2
              rw [← hd] at hp2
              simp only [List.mem_cons, List.not_mem_nil, or_false] at hp2
              rcases hp2 with rfl | rfl
              · exact ⟨Or.inl rfl, bounds⟩
              · exact ⟨Or.inr rfl, (hb m2 (Or.inr rfl)).2.2⟩
        · by_cases hB : (0 : ℚ) < m2.accuracy
          · have s1 : selStep (none, 0) ("Decision Tree", some m1) = (none, 0) :=
              selStep_le _ _ _ (by simpa using not_lt.mp hA)
            have s2 : selStep ((none : Option String), (0 : ℚ))
                ("Logistic Regression", some m2)
                = (some "Logistic Regression", m2.accuracy) :=
              selStep_higher _ _ _ (by simpa using hB)
            have hfold : ((modelEntries (some m1) (some m2)).foldl selStep (none, 0))
                = (some "Logistic Regression", m2.accuracy) := by
              simp only [modelEntries, List.foldl, s1, s2]
            simp only [train_ensemble_models, if_neg hl, if_neg h21, hfold, hdet,
              TrainOutput.success.injEq] at hsucc
            obtain ⟨hn, hp, hd⟩ := hsucc
            obtain ⟨b0, b1, bounds⟩ := hb m2 (Or.inr rfl)
            refine ⟨⟨m2, Or.inr ⟨hn.symm, rfl⟩, hp.symm⟩, ?_, ?_, ?_⟩
            · rw [← hp]
              exact (round2_pct_bounds b0 b1).1
            · rw [← hp]
              exact (round2_pct_bounds b0 b1).2
            · intro p hp2
              rw [← hd] at hp2
              simp only [List.mem_cons, List.not_mem_nil, or_false] at hp2
              rcases hp2 with rfl | rfl
              · exact ⟨Or.inl rfl, (hb m1 (Or.inl rfl)).2.2⟩
              · exact ⟨Or.inr rfl, bounds⟩
          · have s1 : selStep (none, 0) ("Decision Tree", some m1) = (none, 0) :=
              selStep_le _ _ _ (by simpa using not_lt.mp hA)
            have s2 : selStep ((none : Option String), (0 : ℚ))
                ("Logistic Regression", some m2) = (none, 0) :=
              selStep_le _ _ _ (by simpa using not_lt.mp hB)
            have hfold : ((modelEntries (some m1) (some m2)).foldl selStep (none, 0))
                = ((none : Option String), (0 : ℚ)) := by
              simp only [modelEntries, List.foldl, s1, s2]
            simp only [train_ensemble_models, if_neg hl, if_neg h21, hfold] at hsucc
            exact TrainOutput.noConfusion hsucc

/-- Witness for C9: the scaling theorem at the concrete metrics of
`C7_witness` (best accuracy 0.7, returned as the percentage 70). -/
theorem C9_witness :
    (∃ m, (("Logistic Regression" = "Decision Tree" ∧ some mDTw = some m) ∨
        ("Logistic Regression" = "Logistic Regression" ∧ some mLRw = some m)) ∧
      round2 (mLRw.accuracy * 100) = round2 (m.accuracy * 100)) ∧
    0 ≤ round2 (mLRw.accuracy * 100) ∧ round2 (mLRw.accuracy * 100) ≤ 100 ∧
    ∀ p ∈ [("Decision Tree", mDTw), ("Logistic Regression", mLRw)],
      (some mDTw = some p.2 ∨ some mLRw = some p.2) ∧
      0 ≤ p.2.precisionVal ∧ p.2.precisionVal ≤ 1 ∧
      0 ≤ p.2.recallVal ∧ p.2.recallVal ≤ 1 ∧ 0 ≤ p.2.f1 ∧ p.2.f1 ≤ 1 :=
  C9_accuracy_scaling (some mDTw) (some mLRw) eC2
    (by
      rintro m (hm | hm) <;> injection hm with hm <;> subst hm <;>
        norm_num [mDTw, mLRw])
    "Logistic Regression" (round2 (mLRw.accuracy * 100))
    [("Decision Tree", mDTw), ("Logistic Regression", mLRw)] C7_witness

theorem round2_min (a b : ℚ) : round2 (min a b) = min (round2 a) (round2 b) := by
  rcases le_total a b with hab | hab
  · rw [min_eq_left hab, min_eq_left (round2_mono hab)]
  · rw [min_eq_right hab, min_eq_right (round2_mono hab)]

theorem dateRange_length (D : ℤ) (tod : ℚ) (days : Nat) :
    (dateRange ⟨D, tod⟩ days).length
      = min days (bdaysBetween (D - (padFor days : ℤ)) D).length := by
  simp only [dateRange, List.length_take, List.length_map]

/-- C4: determinism fails as stated: two same-process mock fetches made
half a day apart return different Series, because every generated
timestamp carries the call's time-of-day; at clock readings day 4,
times 0 and 1/2, the first Date cells are -178 and -178 + 1/2. -/
theorem C4_counterexample :
    ¬ MockDeterministic (fun _ _ => 0) (fun _ => 1) (fun _ => 0)
      "TCS.NS" "6mo" := by
  intro h
  have h1 := h ⟨4, 0⟩ ⟨4, 1/2⟩
  have h2 := congrArg OHLCV.date h1
  have h3 := congrArg (fun l => l.getD 0 0) h2
  have e1 : (generate_enhanced_mock_data (fun _ _ => 0) (fun _ => 1)
      (fun _ => 0) ⟨4, 0⟩ "TCS.NS" "6mo").date.getD 0 0 = -178 := by
    with_unfolding_all decide
  have e2 : (generate_enhanced_mock_data (fun _ _ => 0) (fun _ => 1)
      (fun _ => 0) ⟨4, 1/2⟩ "TCS.NS" "6mo").date.getD 0 0 = -178 + 1/2 := by
    with_unfolding_all decide
  simp only at h3
  rw [e1, e2] at h3
  norm_num at h3

/-- C4 (amended): the generator is a pure function of the clock and the
modelled collaborators, and its price path is clock-independent within a
day: two calls on the same day (any times of day) agree on the Open,
High, Low, Close and Volume columns; only the Date column embeds the
time-of-day. -/
theorem C4_same_day_price_columns (stream : Nat → Nat → ℚ) (expFn : ℚ → ℚ)
    (hashFn : String → Nat) (ticker period : String) (D : ℤ) (tod1 tod2 : ℚ) :
    (generate_enhanced_mock_data stream expFn hashFn ⟨D, tod1⟩ ticker period).opn
      = (generate_enhanced_mock_data stream expFn hashFn ⟨D, tod2⟩ ticker period).opn ∧
    (generate_enhanced_mock_data stream expFn hashFn ⟨D, tod1⟩ ticker period).high
      = (generate_enhanced_mock_data stream expFn hashFn ⟨D, tod2⟩ ticker period).high ∧
    (generate_enhanced_mock_data stream expFn hashFn ⟨D, tod1⟩ ticker period).low
      = (generate_enhanced_mock_data stream expFn hashFn ⟨D, tod2⟩ ticker period).low ∧
    (generate_enhanced_mock_data stream expFn hashFn ⟨D, tod1⟩ ticker period).close
      = (generate_enhanced_mock_data stream expFn hashFn ⟨D, tod2⟩ ticker period).close ∧
    (generate_enhanced_mock_data stream expFn hashFn ⟨D, tod1⟩ ticker period).vol
      = (generate_enhanced_mock_data stream expFn hashFn ⟨D, tod2⟩ ticker period).vol := by
  refine ⟨?_, ?_, ?_, ?_, ?_⟩ <;>
    simp only [generate_enhanced_mock_data, dateRange_length]

theorem truncInt_nonneg {q : ℚ} (h : 0 ≤ q) : 0 ≤ truncInt q := by
  unfold truncInt
  exact Int.tdiv_nonneg (Rat.num_nonneg.mpr h) (by positivity)

/-- C6: every bar of the synthetic Series satisfies
High ≥ max(Open, Close), Low ≤ min(Open, Close) and Volume ≥ 0, also
after the final two-decimal rounding: the clamp establishes the raw
inequalities and round-half-even is monotone and commutes with max/min;
the volume is a truncated positive log-normal draw. -/
theorem C6_bar_invariants (stream : Nat → Nat → ℚ) (expFn : ℚ → ℚ)
    (hashFn : String → Nat) (now : Clock) (ticker period : String) (i : Nat)
    (hi : i < (generate_enhanced_mock_data stream expFn hashFn now ticker period).close.length)
    (hvol : 0 < stream (hashFn ticker % 2 ^ 32)
      (4 * (dateRange now (daysFor period)).length + i)) :
    max ((generate_enhanced_mock_data stream expFn hashFn now ticker period).opn.getD i 0)
        ((generate_enhanced_mock_data stream expFn hashFn now ticker period).close.getD i 0)
      ≤ (generate_enhanced_mock_data stream expFn hashFn now ticker period).high.getD i 0 ∧
    (generate_enhanced_mock_data stream expFn hashFn now ticker period).low.getD i 0
      ≤ min ((generate_enhanced_mock_data stream expFn hashFn now ticker period).opn.getD i 0)
        ((generate_enhanced_mock_data stream expFn hashFn now ticker period).close.getD i 0) ∧
    0 ≤ (generate_enhanced_mock_data stream expFn hashFn now ticker period).vol.getD i 0 := by
  simp only [generate_enhanced_mock_data] at hi ⊢
  rw [List.length_map, List.length_range] at hi
  rw [getD_map_range, getD_map_range, getD_map_range, getD_map_range,
    getD_map_range, if_pos hi, if_pos hi, if_pos hi, if_pos hi, if_pos hi]
  refine ⟨?_, ?_, ?_⟩
  · rw [← round2_max]
    exact round2_mono (le_max_right _ _)
  · rw [← round2_min]
    exact round2_mono (min_le_right _ _)
  · have h1 : (0 : ℚ) ≤ ((truncInt (stream (hashFn ticker % 2 ^ 32)
        (4 * (dateRange now (daysFor period)).length + i)) : ℤ) : ℚ) := by
      exact_mod_cast truncInt_nonneg (le_of_lt hvol)
    have h2 := round2_mono h1
    rw [round2_zero] at h2
    exact h2

/-- Witness for C6: the invariant theorem at a concrete all-ones stream,
an unknown ticker, the 3-month period, clock day 7, first row. -/
theorem C6_witness :
    (0 < (generate_enhanced_mock_data (fun _ _ => 1) (fun _ => 1) (fun _ => 0)
        ⟨7, 0⟩ "UNKNOWN.NS" "3mo").close.length) ∧
    (max ((generate_enhanced_mock_data (fun _ _ => 1) (fun _ => 1) (fun _ => 0)
          ⟨7, 0⟩ "UNKNOWN.NS" "3mo").opn.getD 0 0)
        ((generate_enhanced_mock_data (fun _ _ => 1) (fun _ => 1) (fun _ => 0)
          ⟨7, 0⟩ "UNKNOWN.NS" "3mo").close.getD 0 0)
      ≤ (generate_enhanced_mock_data (fun _ _ => 1) (fun _ => 1) (fun _ => 0)
          ⟨7, 0⟩ "UNKNOWN.NS" "3mo").high.getD 0 0 ∧
    (generate_enhanced_mock_data (fun _ _ => 1) (fun _ => 1) (fun _ => 0)
        ⟨7, 0⟩ "UNKNOWN.NS" "3mo").low.getD 0 0
      ≤ min ((generate_enhanced_mock_data (fun _ _ => 1) (fun _ => 1) (fun _ => 0)
          ⟨7, 0⟩ "UNKNOWN.NS" "3mo").opn.getD 0 0)
        ((generate_enhanced_mock_data (fun _ _ => 1) (fun _ => 1) (fun _ => 0)
          ⟨7, 0⟩ "UNKNOWN.NS" "3mo").close.getD 0 0) ∧
    0 ≤ (generate_enhanced_mock_data (fun _ _ => 1) (fun _ => 1) (fun _ => 0)
        ⟨7, 0⟩ "UNKNOWN.NS" "3mo").vol.getD 0 0) :=
  ⟨by decide,
   C6_bar_invariants (fun _ _ => 1) (fun _ => 1) (fun _ => 0) ⟨7, 0⟩
     "UNKNOWN.NS" "3mo" 0 (by decide) (by norm_num)⟩

theorem filter_length_compl {α : Type} (l : List α) (p : α → Bool) :
    (l.filter p).length + (l.filter (fun a => ! p a)).length = l.length := by
  induction l with
  | nil => rfl
  | cons a t ih =>
    by_cases h : p a = true
    · simp [List.filter_cons, h]
      omega
    · simp [List.filter_cons, h]
      omega

/-- C8: on every non-empty input the Indicator Engine's output contains
no undefined cell in any computed column, and its row count equals the
input row count minus the number of warm-up rows - the rows holding a
NaN in some computed column - because the final dropna removes exactly
those rows (no per-column filling). -/
theorem C8_enrich_no_nan (sq : ℚ → ℚ) (d : OHLCV) (E : Enriched)
    (h : calculate_advanced_indicators sq (some d) = some E) :
    (∀ col ∈ indicatorCols E, ∀ cell ∈ col, cell.isSome = true) ∧
    E.base.close.length =
      d.close.length - ((List.range d.close.length).filter
        (fun i => ! rowDefined sq d i)).length := by
  by_cases hl : d.close.length = 0
  · simp [calculate_advanced_indicators, hl] at h
  · simp only [calculate_advanced_indicators, if_neg hl] at h
    have hE : E = selectRows (computeColumns sq d) (keptRows sq d) :=
      (Option.some.inj h).symm
    subst hE
    constructor
    · intro col hcol cell hcell
      have hmap : indicatorCols (selectRows (computeColumns sq d) (keptRows sq d))
          = (indicatorCols (computeColumns sq d)).map
            (fun c => selectC c (keptRows sq d)) := rfl
      rw [hmap] at hcol
      obtain ⟨c0, hc0, rfl⟩ := List.mem_map.mp hcol
      have hcc : indicatorCols (computeColumns sq d)
          = (cellFns sq d).map (mkCol d.close.length) := rfl
      rw [hcc] at hc0
      obtain ⟨f, hf, rfl⟩ := List.mem_map.mp hc0
      unfold selectC at hcell
      obtain ⟨i, hi, rfl⟩ := List.mem_map.mp hcell
      unfold keptRows at hi
      have hi2 := List.mem_filter.mp hi
      have hin : i < d.close.length := List.mem_range.mp hi2.1
      have hdef : rowDefined sq d i = true := hi2.2
      unfold mkCol
      rw [getD_map_range, if_pos hin]
      unfold rowDefined at hdef
      rw [List.all_eq_true] at hdef
      exact hdef f hf
    · show (selectQ d.close (keptRows sq d)).length = _
      unfold selectQ keptRows
      rw [List.length_map]
      have hsplit := filter_length_compl (List.range d.close.length)
        (rowDefined sq d)
      rw [List.length_range] at hsplit
      omega

/-- Witness for C8: the theorem applied to the concrete 50-bar series
`c3Base`, whose enrichment keeps one fully-defined row (50 - 49 warm-up
rows). -/
theorem C8_witness :
    calculate_advanced_indicators mockSqrt (some c3Base) = some c3Run2 ∧
    ((∀ col ∈ indicatorCols c3Run2, ∀ cell ∈ col, cell.isSome = true) ∧
      c3Run2.base.close.length =
        c3Base.close.length - ((List.range c3Base.close.length).filter
          (fun i => ! rowDefined mockSqrt c3Base i)).length) :=
  ⟨c3_calc2, C8_enrich_no_nan mockSqrt c3Base c3Run2 c3_calc2⟩

end AlgoTrading
